import Mathlib

/-!
# uds-c: diagnostic request/response engine (`src/uds/uds.c`)

A shallow embedding of the request encoder, the receive-session set-up, the
frame-feeding state machine and the PID decoder of `uds.c`, followed by the
properties proved of it.

Conventions of the embedding.

* C integers are natural numbers. A stored value is reduced modulo the width of
  the variable where `uds.c` shows a narrowing store (the `uint8_t` local
  `payload_index`, the 16-bit `pid` read out of a 64-bit bit field);
  comparisons and differences are made on the promoted `int` values, as in C,
  so `request.mode + 0x40` does not wrap and `message->size - payload_index`
  can be negative.
* A fixed C array with a length field is a list; reading an array slot past the
  end of the list yields the zero the C initialiser put there.
* The ISO-TP transport (`isotp_send`, `isotp_receive`, `isotp_continue_send`,
  `isotp_continue_receive`) is not part of this program: it is a parameter
  `T : IsoTp S R`, with `S` and `R` the states of a send and a receive session.
* The response callback is an effect: every invocation is recorded, with the
  response it was handed, in `callback_calls`.
* The shims are function pointers that may be `NULL` (`uds.h` line 18); the
  embedding keeps, for each, whether it is set. What the logging shim prints is
  not part of the modelled state, but each call through `shims->log` is: a call
  made through a `NULL` pointer does not return, and a function whose run can
  make one yields an `Option`, `none` standing for the run that is lost there.
-/

namespace Uds

/-! ## Constants (`uds.c` lines 9-16, `uds.h` lines 8-10) -/

@[simp] abbrev ARBITRATION_ID_OFFSET : Nat := 0x8
@[simp] abbrev MODE_RESPONSE_OFFSET : Nat := 0x40
@[simp] abbrev NEGATIVE_RESPONSE_MODE : Nat := 0x7f
@[simp] abbrev MAX_DIAGNOSTIC_PAYLOAD_SIZE : Nat := 6
@[simp] abbrev MODE_BYTE_INDEX : Nat := 0
@[simp] abbrev PID_BYTE_INDEX : Nat := 1
@[simp] abbrev NEGATIVE_RESPONSE_MODE_INDEX : Nat := 1
@[simp] abbrev NEGATIVE_RESPONSE_NRC_INDEX : Nat := 2
@[simp] abbrev CHAR_BIT : Nat := 8
@[simp] abbrev OBD2_FUNCTIONAL_BROADCAST_ID : Nat := 0x7df
@[simp] abbrev OBD2_FUNCTIONAL_RESPONSE_START : Nat := 0x7e8
@[simp] abbrev OBD2_FUNCTIONAL_RESPONSE_COUNT : Nat := 8

/-! ## Data model -/

/-- Modelled from the spec: `DiagnosticRequest` is declared in `uds/uds_types.h`,
which is not among the sources. Fields as in spec section 3 and as `uds.c` uses
them: `arbitration_id` and `pid` are 16-bit, `mode` is one byte, `pid_length`
is a byte count (0 for automatic), `payload` is a byte array of which
`payload_length` bytes are meant. -/
structure DiagnosticRequest where
  arbitration_id : Nat
  mode : Nat
  has_pid : Bool
  pid : Nat
  pid_length : Nat
  payload : List Nat
  payload_length : Nat
deriving DecidableEq, Repr

/-- Modelled from the spec: `DiagnosticResponse` is declared in
`uds/uds_types.h`, which is not among the sources. `payload` holds the
`payload_length` bytes copied into the C array; `negative_response_code` 0 is
the unset value. -/
structure DiagnosticResponse where
  completed : Bool
  success : Bool
  arbitration_id : Nat
  mode : Nat
  has_pid : Bool
  pid : Nat
  negative_response_code : Nat
  payload : List Nat
  payload_length : Nat
deriving DecidableEq, Repr

/-- The transport's reassembled message (`IsoTpMessage`): `size` is an unsigned
16-bit count, `payload` the byte array it counts. -/
structure IsoTpMessage where
  arbitration_id : Nat
  payload : List Nat
  size : Nat
  completed : Bool
deriving DecidableEq, Repr

/-- The four transport operations `uds.c` consumes, over send-session states `S`
and receive-session states `R`; `send_completed` reads the `completed` field of
a send handle. -/
structure IsoTp (S R : Type) where
  isotp_send : Nat → List Nat → Nat → S
  isotp_receive : Nat → R
  isotp_continue_send : S → Nat → List Nat → Nat → S
  isotp_continue_receive : R → Nat → List Nat → Nat → R × IsoTpMessage
  send_completed : S → Bool

/-- Modelled from the spec: `DiagnosticRequestHandle` is declared in
`uds/uds_types.h`, which is not among the sources. `callback` is true when the
C function pointer is not `NULL`; `isotp_receive_handles` lists the sessions
that have been opened. -/
structure DiagnosticRequestHandle (S R : Type) where
  request : DiagnosticRequest
  success : Bool
  completed : Bool
  isotp_send_handle : S
  isotp_receive_handles : List R
  isotp_receive_handle_count : Nat
  callback : Bool

/-- What one call of `diagnostic_receive_can_frame` leaves behind: the mutated
handle, the returned response, and the responses handed to the callback. -/
structure ReceiveResult (S R : Type) where
  handle : DiagnosticRequestHandle S R
  response : DiagnosticResponse
  callback_calls : List DiagnosticResponse

/-- Modelled from the spec: `DiagnosticShims` is declared in
`uds/uds_types.h`, which is not among the sources. Each field is true when the
C function pointer is not `NULL`. -/
structure DiagnosticShims where
  log : Bool
  send_can_message : Bool
  set_timer : Bool
deriving DecidableEq, Repr

/-- The function `diagnostic_init_shims` (lines 22-31). -/
def diagnostic_init_shims (log send_can_message set_timer : Bool) : DiagnosticShims :=
  { log := log, send_can_message := send_can_message, set_timer := set_timer }

/-- A call `shims->log(...)` made without a test of the pointer, as on lines
228, 234, 239 and 245: it returns when a logging shim is set and is a call
through `NULL`, from which the run does not come back, when none is. -/
def log_call (shims : DiagnosticShims) : Option Unit :=
  if shims.log = true then some () else none

/-! ## Byte-buffer primitives -/

/-- The `n` low-order bytes of `v`, most significant first. -/
def be_bytes : Nat → Nat → List Nat
  | 0, _ => []
  | n + 1, v => be_bytes n (v / 256) ++ [v % 256]

/-- The number a big-endian byte string denotes. -/
def be_value (bs : List Nat) : Nat :=
  bs.foldl (fun acc b => acc * 256 + b) 0

/-- Slot `i` of a C byte array (zero where the list has no entry). -/
def byte_at (a : List Nat) (i : Nat) : Nat :=
  a.getD i 0

/-- The C `memcpy(&dest[idx], src, n)`: `none` when the `n` bytes do not lie
inside `dest`, or `src` does not hold `n` bytes. -/
def memcpy (dest : List Nat) (idx : Nat) (src : List Nat) (n : Nat) : Option (List Nat) :=
  if idx + n ≤ dest.length ∧ n ≤ src.length then
    some (dest.take idx ++ src.take n ++ dest.drop (idx + n))
  else
    none

/-- Modelled from the spec: `set_bitfield` belongs to the bit-field library,
which is not among the sources; spec sections 1 and 4.1 describe it as
fixed-width big-endian field insertion into a byte buffer. Offsets and widths
are whole bytes at its only call site. A value that does not fit the field, an
empty field, or a field that leaves the buffer, writes nothing. -/
def set_bitfield (value offset bit_count : Nat) (destination : List Nat)
    (destination_length : Nat) : List Nat :=
  if value < 2 ^ bit_count ∧ 0 < bit_count
      ∧ offset + bit_count ≤ destination_length * CHAR_BIT
      ∧ destination_length ≤ destination.length then
    destination.take (offset / CHAR_BIT) ++ be_bytes (bit_count / CHAR_BIT) value
      ++ destination.drop (offset / CHAR_BIT + bit_count / CHAR_BIT)
  else
    destination

/-- Modelled from the spec: `get_bitfield` belongs to the bit-field library,
which is not among the sources; spec sections 1 and 4.3 describe it as
fixed-width big-endian field extraction, made only when the source is long
enough. A field that leaves the first `source_length` bytes reads as 0. -/
def get_bitfield (source : List Nat) (source_length offset bit_count : Nat) : Nat :=
  if 0 < bit_count ∧ bit_count ≤ 64 ∧ offset + bit_count ≤ source_length * CHAR_BIT then
    be_value ((List.range (bit_count / CHAR_BIT)).map
      (fun i => byte_at source (offset / CHAR_BIT + i)))
  else
    0

/-! ## Request side (`uds.c` lines 33-143) -/

/-- The function `setup_receive_handle` (lines 33-50). -/
def setup_receive_handle {S R : Type} (T : IsoTp S R) (handle : DiagnosticRequestHandle S R) :
    DiagnosticRequestHandle S R :=
  if handle.request.arbitration_id = OBD2_FUNCTIONAL_BROADCAST_ID then
    { handle with
      isotp_receive_handles := (List.range OBD2_FUNCTIONAL_RESPONSE_COUNT).map
        (fun response_id => T.isotp_receive (OBD2_FUNCTIONAL_RESPONSE_START + response_id))
      isotp_receive_handle_count := OBD2_FUNCTIONAL_RESPONSE_COUNT }
  else
    { handle with
      isotp_receive_handle_count := 1
      isotp_receive_handles :=
        [T.isotp_receive (handle.request.arbitration_id + ARBITRATION_ID_OFFSET)] }

/-- The function `autoset_pid_length` (lines 52-62); `pid` is the caller's 16-bit value. -/
def autoset_pid_length (mode pid pid_length : Nat) : Nat :=
  if pid_length = 0 then
    if pid > 0xffff ∨ mode > 10 then 2 else 1
  else
    pid_length

/-- The `pid_length` the request carries once `diagnostic_request` has run
(lines 75-78): resolved only when the request has a PID. -/
def resolved_pid_length (request : DiagnosticRequest) : Nat :=
  if request.has_pid then
    autoset_pid_length request.mode request.pid request.pid_length
  else
    request.pid_length

/-- The outgoing buffer of `diagnostic_request` (lines 73-85): the 6-byte
`payload` array after the mode, PID and payload writes, or `none` when the
`memcpy` of line 83 leaves the array. -/
def request_buffer (request : DiagnosticRequest) : Option (List Nat) :=
  let payload := List.replicate MAX_DIAGNOSTIC_PAYLOAD_SIZE 0
  let payload := payload.set MODE_BYTE_INDEX request.mode
  let pid_length := resolved_pid_length request
  let payload :=
    if request.has_pid then
      set_bitfield request.pid (PID_BYTE_INDEX * CHAR_BIT) (pid_length * CHAR_BIT)
        payload MAX_DIAGNOSTIC_PAYLOAD_SIZE
    else
      payload
  if request.payload_length > 0 then
    memcpy payload (PID_BYTE_INDEX + pid_length) request.payload request.payload_length
  else
    some payload

/-- The size `diagnostic_request` passes to `isotp_send` (line 93). -/
def request_size (request : DiagnosticRequest) : Nat :=
  1 + request.payload_length + resolved_pid_length request

/-- The function `diagnostic_request` (lines 64-130): `none` when building the buffer writes
outside it. -/
def diagnostic_request {S R : Type} (T : IsoTp S R) (request : DiagnosticRequest)
    (callback : Bool) : Option (DiagnosticRequestHandle S R) :=
  match request_buffer request with
  | none => none
  | some payload =>
    some (setup_receive_handle T
      { request := { request with pid_length := resolved_pid_length request }
        callback := callback
        success := false
        completed := false
        isotp_send_handle :=
          T.isotp_send request.arbitration_id payload (request_size request)
        isotp_receive_handles := []
        isotp_receive_handle_count := 0 })

/-- The request types of `diagnostic_request_pid` (`DiagnosticPidRequestType`). -/
inductive DiagnosticPidRequestType where
  | DIAGNOSTIC_STANDARD_PID
  | DIAGNOSTIC_ENHANCED_PID
deriving DecidableEq, Repr

/-- The function `diagnostic_request_pid` (lines 132-143): the fields the
initialiser does not name are zero. -/
def diagnostic_request_pid {S R : Type} (T : IsoTp S R)
    (pid_request_type : DiagnosticPidRequestType) (arbitration_id pid : Nat)
    (callback : Bool) : Option (DiagnosticRequestHandle S R) :=
  diagnostic_request T
    { arbitration_id := arbitration_id
      mode := if pid_request_type = DiagnosticPidRequestType.DIAGNOSTIC_STANDARD_PID
        then 0x1 else 0x22
      has_pid := true
      pid := pid
      pid_length := 0
      payload := []
      payload_length := 0 }
    callback

/-! ## Response side (`uds.c` lines 145-258) -/

/-- The `MAX` macro of lines 18-20, on `int`s. -/
def MAX (x y : Int) : Int :=
  if x > y then x else y

/-- Modelled from the spec: the store of an `int` in the unsigned field
`payload_length`, whose declaration (`uds/uds_types.h`) is not among the
sources. A value that is not negative is kept, the field being taken to hold
every message size; a negative value is converted as C converts it to an
unsigned type, by adding the modulus, here that of a byte: `-1` is stored as
255. -/
def to_unsigned (x : Int) : Nat :=
  if x < 0 then Int.toNat (x % 256) else Int.toNat x

/-- The function `handle_negative_response` (lines 145-163). -/
def handle_negative_response (message : IsoTpMessage) (response : DiagnosticResponse) :
    Bool × DiagnosticResponse :=
  if response.mode = NEGATIVE_RESPONSE_MODE then
    (true,
      { response with
        mode :=
          if message.size > NEGATIVE_RESPONSE_MODE_INDEX then
            byte_at message.payload NEGATIVE_RESPONSE_MODE_INDEX
          else response.mode
        negative_response_code :=
          if message.size > NEGATIVE_RESPONSE_NRC_INDEX then
            byte_at message.payload NEGATIVE_RESPONSE_NRC_INDEX
          else response.negative_response_code
        success := false
        completed := true })
  else
    (false, response)

/-- The response of `handle_positive_response` once the mode has matched, before
the PID comparison (lines 173-191). `payload_index` is an 8-bit local; the
subtraction of line 187 is made on `int`s, `MAX` is applied to the difference
and the result is stored in the unsigned field `payload_length`. -/
def positive_response_fields {S R : Type} (handle : DiagnosticRequestHandle S R)
    (message : IsoTpMessage) (response : DiagnosticResponse) : DiagnosticResponse :=
  let pid_present : Bool := handle.request.has_pid && decide (message.size > 1)
  let payload_index := (1 + handle.request.pid_length) % 256
  let payload_length := to_unsigned (MAX 0 ((message.size : Int) - (payload_index : Int)))
  { response with
    mode := handle.request.mode
    has_pid := pid_present
    pid :=
      if pid_present = true then
        if handle.request.pid_length = 2 then
          get_bitfield message.payload message.size (PID_BYTE_INDEX * CHAR_BIT)
            (2 * CHAR_BIT) % 65536
        else
          byte_at message.payload PID_BYTE_INDEX
      else response.pid
    payload_length := payload_length
    payload :=
      if payload_length > 0 then
        (message.payload.drop payload_index).take payload_length
      else response.payload }

/-- The function `handle_positive_response` (lines 165-202). -/
def handle_positive_response {S R : Type} (handle : DiagnosticRequestHandle S R)
    (message : IsoTpMessage) (response : DiagnosticResponse) : Bool × DiagnosticResponse :=
  if response.mode = handle.request.mode + MODE_RESPONSE_OFFSET then
    let response := positive_response_fields handle message response
    if (handle.request.has_pid = false ∧ response.has_pid = false)
        ∨ response.pid = handle.request.pid then
      (true, { response with success := true, completed := true })
    else
      (false, response)
  else
    (false, response)

/-- The `for` loop of `diagnostic_receive_can_frame` up to its `break`
(lines 219-224): the sessions are fed the frame in order until one reports a
completed message; later sessions are not fed. -/
def continue_receive_sessions {S R : Type} (T : IsoTp S R) (arbitration_id : Nat)
    (data : List Nat) (size : Nat) : List R → List R × Option IsoTpMessage
  | [] => ([], none)
  | session :: rest =>
    let step := T.isotp_continue_receive session arbitration_id data size
    if step.2.completed = true then
      (step.1 :: rest, some step.2)
    else
      let later := continue_receive_sessions T arbitration_id data size rest
      (step.1 :: later.1, later.2)

/-- The response `diagnostic_receive_can_frame` starts from (lines 208-212):
the frame's arbitration id, every other field zero. -/
def fresh_response (arbitration_id : Nat) : DiagnosticResponse :=
  { arbitration_id := arbitration_id, success := false, completed := false,
    mode := 0, has_pid := false, pid := 0, negative_response_code := 0,
    payload := [], payload_length := 0 }

/-- The body `diagnostic_receive_can_frame` runs for a completed message (lines
225-251). Each of the four branches calls `shims->log` with no test of the
pointer (lines 228, 234, 239, 245). -/
def handle_completed_message {S R : Type} (shims : DiagnosticShims)
    (handle : DiagnosticRequestHandle S R) (message : IsoTpMessage)
    (response : DiagnosticResponse) : Option (ReceiveResult S R) :=
  let classified : Option (DiagnosticRequestHandle S R × DiagnosticResponse) :=
    if message.size > 0 then
      let response := { response with mode := byte_at message.payload 0 }
      let negative := handle_negative_response message response
      if negative.1 = true then
        (log_call shims).bind fun _ =>
          some ({ handle with success := true, completed := true }, negative.2)
      else
        let positive := handle_positive_response handle message negative.2
        if positive.1 = true then
          (log_call shims).bind fun _ =>
            some ({ handle with success := true, completed := true }, positive.2)
        else
          (log_call shims).bind fun _ => some (handle, positive.2)
    else
      (log_call shims).bind fun _ => some (handle, response)
  classified.bind fun classified =>
    some
      { handle := classified.1
        response := classified.2
        callback_calls :=
          if classified.1.completed = true ∧ classified.1.callback = true then [classified.2]
          else [] }

/-- The function `diagnostic_receive_can_frame` (lines 204-258). -/
def diagnostic_receive_can_frame {S R : Type} (T : IsoTp S R) (shims : DiagnosticShims)
    (handle : DiagnosticRequestHandle S R) (arbitration_id : Nat) (data : List Nat)
    (size : Nat) : Option (ReceiveResult S R) :=
  let response := fresh_response arbitration_id
  if T.send_completed handle.isotp_send_handle = false then
    some
      { handle := { handle with
          isotp_send_handle :=
            T.isotp_continue_send handle.isotp_send_handle arbitration_id data size }
        response := response
        callback_calls := [] }
  else
    let fed := continue_receive_sessions T arbitration_id data size
      (handle.isotp_receive_handles.take handle.isotp_receive_handle_count)
    let handle := { handle with
      isotp_receive_handles :=
        fed.1 ++ handle.isotp_receive_handles.drop handle.isotp_receive_handle_count }
    match fed.2 with
    | none => some { handle := handle, response := response, callback_calls := [] }
    | some message => handle_completed_message shims handle message response

/-! ## PID decoding (`uds.c` lines 266-301) -/

/-- The function `diagnostic_decode_obd2_pid` (lines 270-301). The result is the
exact rational value of the C expression of the row: the payload bytes are
promoted to `int` before any arithmetic, so the subtractions are signed. C
returns this value as a `float`, which holds it exactly in every row but those
dividing by 100.0 or 255.0, where C rounds it. -/
def diagnostic_decode_obd2_pid (response : DiagnosticResponse) : ℚ :=
  let payload0 : Int := (byte_at response.payload 0 : Nat)
  let payload1 : Int := (byte_at response.payload 1 : Nat)
  if response.pid = 0xa then
    ((payload0 * 3 : Int) : ℚ)
  else if response.pid = 0xc then
    ((payload0 * 256 + payload1 : Int) : ℚ) / 4
  else if response.pid = 0xd ∨ response.pid = 0x33 ∨ response.pid = 0xb then
    (payload0 : ℚ)
  else if response.pid = 0x10 then
    ((payload0 * 256 + payload1 : Int) : ℚ) / 100
  else if response.pid = 0x11 ∨ response.pid = 0x2f ∨ response.pid = 0x45
      ∨ response.pid = 0x4c ∨ response.pid = 0x52 ∨ response.pid = 0x5a
      ∨ response.pid = 0x4 then
    (payload0 : ℚ) * 100 / 255
  else if response.pid = 0x46 ∨ response.pid = 0x5c ∨ response.pid = 0xf
      ∨ response.pid = 0x5 then
    ((payload0 - 40 : Int) : ℚ)
  else if response.pid = 0x62 then
    ((payload0 - 125 : Int) : ℚ)
  else
    0

/-! ## The caller's loop -/

/-- A CAN frame as it is handed to `diagnostic_receive_can_frame`. -/
structure CanFrame where
  arbitration_id : Nat
  data : List Nat
  size : Nat
deriving DecidableEq, Repr

/-- What feeding a sequence of frames leaves behind: the handle, the responses
the calls returned, in order, and the responses handed to the callback, in
order. -/
structure FeedResult (S R : Type) where
  handle : DiagnosticRequestHandle S R
  responses : List DiagnosticResponse
  callback_calls : List DiagnosticResponse

/-- The loop the caller drives (spec section 5): every observed frame is fed to
the handle with `diagnostic_receive_can_frame`, oldest first. The loop goes on
to the next frame only when the call made for this one has returned. -/
def feed_frames {S R : Type} (T : IsoTp S R) (shims : DiagnosticShims) :
    DiagnosticRequestHandle S R → List CanFrame → Option (FeedResult S R)
  | handle, [] => some { handle := handle, responses := [], callback_calls := [] }
  | handle, frame :: rest =>
    (diagnostic_receive_can_frame T shims handle frame.arbitration_id frame.data
        frame.size).bind fun r =>
      (feed_frames T shims r.handle rest).bind fun later =>
        some
          { handle := later.handle
            responses := r.response :: later.responses
            callback_calls := r.callback_calls ++ later.callback_calls }

/-! ## Runs in which the log calls return

The three functions of this section are not functions of `uds.c`: each is the
result of the function named in its comment in the runs in which a logging shim
is set, a pure function the lemmas reason on. The lemmas
`handle_completed_message_eq`, `receive_with_logger`, `receive_some`,
`feed_frames_with_logger` and `feed_frames_some` tie them to
`handle_completed_message`, `diagnostic_receive_can_frame` and `feed_frames`,
the functions the theorems of the last section are stated of. -/

/-- What `handle_completed_message` leaves behind when its call of `shims->log`
returns: the classification of lines 226-247 and the callback of lines 249-251,
the four log calls left out. -/
def completed_message_outcome {S R : Type} (handle : DiagnosticRequestHandle S R)
    (message : IsoTpMessage) (response : DiagnosticResponse) : ReceiveResult S R :=
  let classified : DiagnosticRequestHandle S R × DiagnosticResponse :=
    if message.size > 0 then
      let response := { response with mode := byte_at message.payload 0 }
      let negative := handle_negative_response message response
      if negative.1 = true then
        ({ handle with success := true, completed := true }, negative.2)
      else
        let positive := handle_positive_response handle message negative.2
        if positive.1 = true then
          ({ handle with success := true, completed := true }, positive.2)
        else
          (handle, positive.2)
    else
      (handle, response)
  { handle := classified.1
    response := classified.2
    callback_calls :=
      if classified.1.completed = true ∧ classified.1.callback = true then [classified.2]
      else [] }

/-- What `diagnostic_receive_can_frame` leaves behind when every call of
`shims->log` it makes returns: lines 204-258 with the log calls left out. -/
def receive_outcome {S R : Type} (T : IsoTp S R)
    (handle : DiagnosticRequestHandle S R) (arbitration_id : Nat) (data : List Nat)
    (size : Nat) : ReceiveResult S R :=
  let response := fresh_response arbitration_id
  if T.send_completed handle.isotp_send_handle = false then
    { handle := { handle with
        isotp_send_handle :=
          T.isotp_continue_send handle.isotp_send_handle arbitration_id data size }
      response := response
      callback_calls := [] }
  else
    let fed := continue_receive_sessions T arbitration_id data size
      (handle.isotp_receive_handles.take handle.isotp_receive_handle_count)
    let handle := { handle with
      isotp_receive_handles :=
        fed.1 ++ handle.isotp_receive_handles.drop handle.isotp_receive_handle_count }
    match fed.2 with
    | none => { handle := handle, response := response, callback_calls := [] }
    | some message => completed_message_outcome handle message response

/-- What `feed_frames` leaves behind when every call of `shims->log` made on
the way returns: the frames fed one after the other through
`receive_outcome`. -/
def feed_outcome {S R : Type} (T : IsoTp S R) :
    DiagnosticRequestHandle S R → List CanFrame → FeedResult S R
  | handle, [] => { handle := handle, responses := [], callback_calls := [] }
  | handle, frame :: rest =>
    let r := receive_outcome T handle frame.arbitration_id frame.data frame.size
    let later := feed_outcome T r.handle rest
    { handle := later.handle
      responses := r.response :: later.responses
      callback_calls := r.callback_calls ++ later.callback_calls }

/-! ## Vocabulary of the statements -/

/-- The handle is in the receiving state and feeding it the frame makes one of
its receive sessions report `message` as completed on this call. -/
def Reassembles {S R : Type} (T : IsoTp S R) (handle : DiagnosticRequestHandle S R)
    (arbitration_id : Nat) (data : List Nat) (size : Nat) (message : IsoTpMessage) : Prop :=
  T.send_completed handle.isotp_send_handle = true ∧
  (continue_receive_sessions T arbitration_id data size
    (handle.isotp_receive_handles.take handle.isotp_receive_handle_count)).2 = some message

instance {S R : Type} (T : IsoTp S R) (handle : DiagnosticRequestHandle S R)
    (arbitration_id : Nat) (data : List Nat) (size : Nat) (message : IsoTpMessage) :
    Decidable (Reassembles T handle arbitration_id data size message) := by
  unfold Reassembles
  infer_instance

/-- The reading back of an encoded request from the buffer and size handed to
the transport, as the round-trip property words it: the mode is byte 0, the PID
is `pid_length` big-endian bytes at index 1, the payload is the bytes after the
PID up to `size`. -/
def reparse_request (buffer : List Nat) (size pid_length : Nat) : Nat × Nat × List Nat :=
  (byte_at buffer 0,
   be_value ((buffer.drop 1).take pid_length),
   (buffer.drop (1 + pid_length)).take (size - (1 + pid_length)))

/-- The round trip of one request: the encoder produces a buffer, and reading it
back with the resolved `pid_length` gives the request's mode, pid and payload. -/
def round_trips (request : DiagnosticRequest) : Bool :=
  match request_buffer request with
  | none => false
  | some buffer =>
    decide (reparse_request buffer (request_size request) (resolved_pid_length request) =
      (request.mode, request.pid, request.payload.take request.payload_length))

/-- The verdict of `handle_positive_response` on a message, run as
`diagnostic_receive_can_frame` runs it: on a response whose mode is the
message's first byte. -/
def positive_match {S R : Type} (handle : DiagnosticRequestHandle S R)
    (message : IsoTpMessage) : Bool :=
  (handle_positive_response handle message
    { fresh_response message.arbitration_id with mode := byte_at message.payload 0 }).1

/-- A transport double for running the engine on concrete frames: sending
completes at once, a receive session is its arbitration id, and every non-empty
frame is one whole message for the session opened on the frame's id. -/
def frame_transport : IsoTp Bool Nat where
  isotp_send := fun _ _ _ => true
  isotp_receive := fun arbitration_id => arbitration_id
  isotp_continue_send := fun s _ _ _ => s
  isotp_continue_receive := fun session arbitration_id data size =>
    if session = arbitration_id ∧ 0 < size then
      (session, { arbitration_id := arbitration_id, payload := data, size := size,
                  completed := true })
    else
      (session, { arbitration_id := arbitration_id, payload := [], size := 0,
                  completed := false })
  send_completed := fun s => s

/-- A handle in the receiving state over `frame_transport`: the request has been
sent and `sessions` are the receive sessions opened for it. -/
def receiving_handle (request : DiagnosticRequest) (sessions : List Nat) :
    DiagnosticRequestHandle Bool Nat :=
  { request := request, success := false, completed := false, isotp_send_handle := true,
    isotp_receive_handles := sessions, isotp_receive_handle_count := sessions.length,
    callback := true }

/-- A request for `pid` under `mode`, with `pid_length` already resolved. -/
def pid_request (arbitration_id mode pid pid_length : Nat) : DiagnosticRequest :=
  { arbitration_id := arbitration_id, mode := mode, has_pid := true, pid := pid,
    pid_length := pid_length, payload := [], payload_length := 0 }

/-- The message `frame_transport` reports for a frame. -/
def frame_message (arbitration_id : Nat) (data : List Nat) : IsoTpMessage :=
  { arbitration_id := arbitration_id, payload := data, size := data.length, completed := true }

/-! ## Lemmas -/

/-- A call in the sending state: the frame goes to `isotp_continue_send` and
nothing else happens. -/
theorem receive_of_sending {S R : Type} (T : IsoTp S R)
    (handle : DiagnosticRequestHandle S R) (arbitration_id : Nat) (data : List Nat)
    (size : Nat) (hs : T.send_completed handle.isotp_send_handle = false) :
    receive_outcome T handle arbitration_id data size =
      { handle := { handle with
          isotp_send_handle :=
            T.isotp_continue_send handle.isotp_send_handle arbitration_id data size }
        response := fresh_response arbitration_id
        callback_calls := [] } := by
  simp [receive_outcome, hs]

theorem feed_outcome_append {S R : Type} (T : IsoTp S R)
    (handle : DiagnosticRequestHandle S R) (before : List CanFrame) (frame : CanFrame) :
    (feed_outcome T handle (before ++ [frame])).handle =
        (receive_outcome T (feed_outcome T handle before).handle
          frame.arbitration_id frame.data frame.size).handle ∧
    (feed_outcome T handle (before ++ [frame])).responses =
        (feed_outcome T handle before).responses ++
          [(receive_outcome T (feed_outcome T handle before).handle
            frame.arbitration_id frame.data frame.size).response] ∧
    (feed_outcome T handle (before ++ [frame])).callback_calls =
        (feed_outcome T handle before).callback_calls ++
          (receive_outcome T (feed_outcome T handle before).handle
            frame.arbitration_id frame.data frame.size).callback_calls := by
  induction before generalizing handle with
  | nil => simp [feed_outcome]
  | cons first rest ih =>
    have h := ih (receive_outcome T handle first.arbitration_id first.data
      first.size).handle
    have e : first :: rest ++ [frame] = first :: (rest ++ [frame]) := rfl
    rw [e]
    simp only [feed_outcome]
    refine ⟨h.1, ?_, ?_⟩
    · rw [h.2.1]
      rfl
    · rw [h.2.2, List.append_assoc]

theorem be_bytes_one (v : Nat) : be_bytes 1 v = [v % 256] := rfl

theorem be_bytes_two (v : Nat) : be_bytes 2 v = [v / 256 % 256, v % 256] := rfl

theorem length_be_bytes (n v : Nat) : (be_bytes n v).length = n := by
  induction n generalizing v with
  | zero => rfl
  | succ k ih => simp [be_bytes, ih]

theorem to_unsigned_MAX_zero_sub (a b : Nat) :
    to_unsigned (MAX 0 ((a : Int) - (b : Int))) = a - b := by
  unfold MAX to_unsigned
  split
  · rw [if_neg (by omega)]; omega
  · omega

theorem get_bitfield_pid16 (source : List Nat) (n : Nat) :
    get_bitfield source n 8 16 =
      if 3 ≤ n then byte_at source 1 * 256 + byte_at source 2 else 0 := by
  have h : (8 + 16 ≤ n * 8) ↔ 3 ≤ n := by omega
  simp [get_bitfield, be_value, List.range_succ, h]

/-- The fields of a matched positive response, with the clamped subtraction read
as truncated subtraction of naturals. -/
theorem positive_response_fields_eq {S R : Type} (handle : DiagnosticRequestHandle S R)
    (message : IsoTpMessage) (response : DiagnosticResponse) :
    positive_response_fields handle message response =
      { response with
        mode := handle.request.mode
        has_pid := handle.request.has_pid && decide (message.size > 1)
        pid :=
          if (handle.request.has_pid && decide (message.size > 1)) = true then
            if handle.request.pid_length = 2 then
              get_bitfield message.payload message.size 8 16 % 65536
            else
              byte_at message.payload 1
          else response.pid
        payload_length := message.size - (1 + handle.request.pid_length) % 256
        payload :=
          if message.size - (1 + handle.request.pid_length) % 256 > 0 then
            (message.payload.drop ((1 + handle.request.pid_length) % 256)).take
              (message.size - (1 + handle.request.pid_length) % 256)
          else response.payload } := by
  simp only [positive_response_fields, to_unsigned_MAX_zero_sub, PID_BYTE_INDEX, CHAR_BIT]

/-- In the receiving state, the call is the completed-message body run on the
message the sessions report. -/
theorem receive_of_reassembles {S R : Type} (T : IsoTp S R)
    (handle : DiagnosticRequestHandle S R) (arbitration_id : Nat) (data : List Nat)
    (size : Nat) (message : IsoTpMessage)
    (h : Reassembles T handle arbitration_id data size message) :
    receive_outcome T handle arbitration_id data size =
      completed_message_outcome
        { handle with
          isotp_receive_handles :=
            (continue_receive_sessions T arbitration_id data size
              (handle.isotp_receive_handles.take handle.isotp_receive_handle_count)).1
            ++ handle.isotp_receive_handles.drop handle.isotp_receive_handle_count }
        message (fresh_response arbitration_id) := by
  obtain ⟨hs, hm⟩ := h
  simp [receive_outcome, hs, hm]

theorem setup_receive_handle_send {S R : Type} (T : IsoTp S R)
    (handle : DiagnosticRequestHandle S R) :
    (setup_receive_handle T handle).isotp_send_handle = handle.isotp_send_handle := by
  unfold setup_receive_handle
  split <;> rfl

theorem byte_at_zero_of_take (buffer : List Nat) (b : Nat) (h : buffer.take 1 = [b]) :
    byte_at buffer 0 = b := by
  cases buffer with
  | nil => simp at h
  | cons x xs => simpa [byte_at] using h

theorem take_drop_one (buffer : List Nat) (n : Nat) :
    (buffer.drop 1).take n = (buffer.take (1 + n)).drop 1 := by
  rw [List.drop_take]
  simp

theorem be_value_append (bs : List Nat) (b : Nat) :
    be_value (bs ++ [b]) = be_value bs * 256 + b := by
  simp [be_value, List.foldl_append]

theorem be_value_be_bytes (n v : Nat) (h : v < 256 ^ n) : be_value (be_bytes n v) = v := by
  induction n generalizing v with
  | zero =>
    have hv : v = 0 := by simpa using h
    subst hv
    rfl
  | succ k ih =>
    have hk : v / 256 < 256 ^ k := by
      rw [Nat.div_lt_iff_lt_mul (by norm_num)]
      rw [pow_succ] at h
      exact h
    rw [be_bytes, be_value_append, ih _ hk]
    omega

theorem be_value_replicate_zero (n : Nat) : be_value (List.replicate n 0) = 0 := by
  induction n with
  | zero => rfl
  | succ k ih =>
    have h : List.replicate (k + 1) 0 = List.replicate k 0 ++ [0] := by
      rw [List.replicate_succ']
    rw [h, be_value_append, ih]

/-! ### Overwriting a slice of a buffer -/

theorem splice_length (dest src : List Nat) (idx : Nat) (h : idx + src.length ≤ dest.length) :
    (dest.take idx ++ src ++ dest.drop (idx + src.length)).length = dest.length := by
  simp [List.length_take, List.length_drop]; omega

theorem splice_take (dest src : List Nat) (idx : Nat) (h : idx + src.length ≤ dest.length) :
    (dest.take idx ++ src ++ dest.drop (idx + src.length)).take idx = dest.take idx := by
  have hlen : (dest.take idx).length = idx := by simp [List.length_take]; omega
  rw [List.append_assoc, List.take_append_eq_append_take]
  simp [hlen]

theorem splice_drop_take (dest src : List Nat) (idx : Nat)
    (h : idx + src.length ≤ dest.length) :
    ((dest.take idx ++ src ++ dest.drop (idx + src.length)).drop idx).take src.length = src := by
  have hlen : (dest.take idx).length = idx := by simp [List.length_take]; omega
  have e : List.drop idx (List.take idx dest) = [] := List.drop_eq_nil_of_le (by simp)
  rw [List.append_assoc, List.drop_append_eq_append_drop]
  simp [hlen, e]

theorem two_pow_bits (n : Nat) : 2 ^ (n * 8) = 256 ^ n := by
  rw [Nat.mul_comm, Nat.pow_mul]

/-- The PID write of `diagnostic_request` when the PID fits its field and the
field lies in the buffer. -/
theorem set_bitfield_pid (pid L : Nat) (buffer : List Nat) (hlen : buffer.length = 6)
    (hfit : pid < 256 ^ L) (hL : 1 + L ≤ 6) :
    set_bitfield pid (PID_BYTE_INDEX * CHAR_BIT) (L * CHAR_BIT) buffer
        MAX_DIAGNOSTIC_PAYLOAD_SIZE =
      buffer.take 1 ++ be_bytes L pid ++ buffer.drop (1 + L) := by
  rcases Nat.eq_zero_or_pos L with rfl | hpos
  · have e : buffer.take 1 ++ buffer.drop 1 = buffer := List.take_append_drop 1 buffer
    simp only [set_bitfield, be_bytes, Nat.zero_mul, Nat.lt_irrefl, false_and, and_false,
      if_false, List.append_nil, Nat.add_zero, e]
  · have h1 : pid < 2 ^ (L * 8) := by rw [two_pow_bits]; exact hfit
    have h2 : 1 * 8 + L * 8 ≤ 6 * 8 := by omega
    simp [set_bitfield, h1, hpos, hlen, h2]

/-- The buffer after the mode and PID writes (lines 73-81). -/
theorem pid_buffer_length (request : DiagnosticRequest)
    (hbudget : 1 + resolved_pid_length request ≤ 6)
    (hfit : request.has_pid = true → request.pid < 256 ^ resolved_pid_length request) :
    (if request.has_pid = true then
        set_bitfield request.pid (PID_BYTE_INDEX * CHAR_BIT)
          (resolved_pid_length request * CHAR_BIT)
          ((List.replicate MAX_DIAGNOSTIC_PAYLOAD_SIZE 0).set MODE_BYTE_INDEX request.mode)
          MAX_DIAGNOSTIC_PAYLOAD_SIZE
      else (List.replicate MAX_DIAGNOSTIC_PAYLOAD_SIZE 0).set MODE_BYTE_INDEX request.mode).length
      = 6 := by
  split
  · next h =>
    rw [set_bitfield_pid _ _ _ (by simp) (hfit h) hbudget]
    have := splice_length ((List.replicate 6 0).set 0 request.mode)
      (be_bytes (resolved_pid_length request) request.pid) 1
      (by simp [length_be_bytes]; omega)
    simpa [length_be_bytes] using this
  · simp

/-- Closed form of the outgoing buffer when the request fits the 6-byte budget. -/
theorem request_buffer_eq (request : DiagnosticRequest)
    (hbudget : 1 + resolved_pid_length request + request.payload_length ≤ 6)
    (hfit : request.has_pid = true → request.pid < 256 ^ resolved_pid_length request)
    (hpayload : request.payload_length ≤ request.payload.length) :
    ∃ staged : List Nat,
      staged.length = 6 ∧
      staged.take 1 = [request.mode] ∧
      (request.has_pid = true →
        (staged.drop 1).take (resolved_pid_length request) =
          be_bytes (resolved_pid_length request) request.pid) ∧
      (request.has_pid = false → staged = [request.mode, 0, 0, 0, 0, 0]) ∧
      request_buffer request =
        some (staged.take (1 + resolved_pid_length request)
          ++ request.payload.take request.payload_length
          ++ staged.drop (1 + resolved_pid_length request + request.payload_length)) := by
  refine ⟨if request.has_pid = true then
        set_bitfield request.pid (PID_BYTE_INDEX * CHAR_BIT)
          (resolved_pid_length request * CHAR_BIT)
          ((List.replicate MAX_DIAGNOSTIC_PAYLOAD_SIZE 0).set MODE_BYTE_INDEX request.mode)
          MAX_DIAGNOSTIC_PAYLOAD_SIZE
      else (List.replicate MAX_DIAGNOSTIC_PAYLOAD_SIZE 0).set MODE_BYTE_INDEX request.mode,
    pid_buffer_length request (by omega) hfit, ?_, ?_, ?_, ?_⟩
  · split
    · next h =>
      rw [set_bitfield_pid _ _ _ (by simp) (hfit h) (by omega)]
      have := splice_take ((List.replicate 6 0).set 0 request.mode)
        (be_bytes (resolved_pid_length request) request.pid) 1
        (by simp [length_be_bytes]; omega)
      simp only [length_be_bytes] at this
      rw [this]
      rfl
    · rfl
  · intro h
    rw [if_pos h, set_bitfield_pid _ _ _ (by simp) (hfit h) (by omega)]
    have := splice_drop_take ((List.replicate 6 0).set 0 request.mode)
      (be_bytes (resolved_pid_length request) request.pid) 1
      (by simp [length_be_bytes]; omega)
    simpa only [length_be_bytes] using this
  · intro h
    simp [h]
  · have hlen := pid_buffer_length request (by omega) hfit
    unfold request_buffer
    simp only []
    by_cases hpl : request.payload_length > 0
    · rw [if_pos hpl]
      unfold memcpy
      rw [if_pos ⟨by rw [hlen]; simp only [PID_BYTE_INDEX]; omega, hpayload⟩]
    · rw [if_neg hpl]
      have h0 : request.payload_length = 0 := by omega
      simp [h0]

theorem positive_response_fields_completed {S R : Type}
    (handle : DiagnosticRequestHandle S R) (message : IsoTpMessage)
    (response : DiagnosticResponse) :
    (positive_response_fields handle message response).completed = response.completed := rfl

theorem positive_response_fields_success {S R : Type}
    (handle : DiagnosticRequestHandle S R) (message : IsoTpMessage)
    (response : DiagnosticResponse) :
    (positive_response_fields handle message response).success = response.success := rfl

/-- When `handle_positive_response` reports a match. -/
theorem handle_positive_response_fst {S R : Type} (handle : DiagnosticRequestHandle S R)
    (message : IsoTpMessage) (response : DiagnosticResponse) :
    (handle_positive_response handle message response).1 = true ↔
      (response.mode = handle.request.mode + MODE_RESPONSE_OFFSET ∧
        ((handle.request.has_pid = false ∧
            (positive_response_fields handle message response).has_pid = false)
          ∨ (positive_response_fields handle message response).pid = handle.request.pid)) := by
  unfold handle_positive_response
  by_cases h1 : response.mode = handle.request.mode + MODE_RESPONSE_OFFSET
  · rw [if_pos h1]
    by_cases h2 : (handle.request.has_pid = false ∧
            (positive_response_fields handle message response).has_pid = false)
          ∨ (positive_response_fields handle message response).pid = handle.request.pid
    · simp only [h2, if_true, h1, and_self]
    · simp only [h2, if_false, and_false]
      exact iff_of_false Bool.false_ne_true id
  · rw [if_neg h1]
    simp only [h1, false_and]
    exact iff_of_false Bool.false_ne_true id

/-- The response `handle_positive_response` leaves. -/
theorem handle_positive_response_snd {S R : Type} (handle : DiagnosticRequestHandle S R)
    (message : IsoTpMessage) (response : DiagnosticResponse) :
    (handle_positive_response handle message response).2 =
      if response.mode = handle.request.mode + MODE_RESPONSE_OFFSET then
        if (handle_positive_response handle message response).1 = true then
          { positive_response_fields handle message response with
            success := true, completed := true }
        else positive_response_fields handle message response
      else response := by
  unfold handle_positive_response
  by_cases h1 : response.mode = handle.request.mode + MODE_RESPONSE_OFFSET
  · simp only [if_pos h1]
    split <;> simp
  · simp only [if_neg h1]

/-- The verdict of `handle_positive_response` does not depend on the response's
arbitration id, nor on anything in the handle but its request. -/
theorem positive_verdict_eq {S R : Type} (handle handle2 : DiagnosticRequestHandle S R)
    (message : IsoTpMessage) (arbitration_id : Nat)
    (hreq : handle2.request = handle.request) :
    (handle_positive_response handle2 message
      { fresh_response arbitration_id with mode := byte_at message.payload 0 }).1
      = positive_match handle message := by
  rw [Bool.eq_iff_iff, positive_match, handle_positive_response_fst,
    handle_positive_response_fst]
  simp only [positive_response_fields_eq, fresh_response, hreq]

/-- The completed-message body, case by case. -/
theorem completed_message_outcome_cases {S R : Type} (handle : DiagnosticRequestHandle S R)
    (message : IsoTpMessage) (arbitration_id : Nat) :
    let r := completed_message_outcome handle message (fresh_response arbitration_id)
    (message.size > 0 ∧ byte_at message.payload 0 = NEGATIVE_RESPONSE_MODE ∧
        r.handle = { handle with success := true, completed := true } ∧
        r.response.completed = true ∧ r.response.success = false ∧
        r.callback_calls = (if handle.callback = true then [r.response] else [])) ∨
    (message.size > 0 ∧ byte_at message.payload 0 ≠ NEGATIVE_RESPONSE_MODE ∧
        positive_match handle message = true ∧
        r.handle = { handle with success := true, completed := true } ∧
        r.response.completed = true ∧ r.response.success = true ∧
        r.callback_calls = (if handle.callback = true then [r.response] else [])) ∨
    ((message.size = 0 ∨ (byte_at message.payload 0 ≠ NEGATIVE_RESPONSE_MODE ∧
          positive_match handle message = false)) ∧
        r.handle = handle ∧
        r.response.completed = false ∧ r.response.success = false ∧
        r.callback_calls =
          (if handle.completed = true ∧ handle.callback = true then [r.response] else [])) := by
  intro r
  by_cases hsz : message.size > 0
  · by_cases hneg : byte_at message.payload 0 = NEGATIVE_RESPONSE_MODE
    · left
      refine ⟨hsz, hneg, ?_, ?_, ?_, ?_⟩ <;>
        simp [r, completed_message_outcome, handle_negative_response, fresh_response, hsz, hneg]
    · right
      have hv := positive_verdict_eq handle handle message arbitration_id rfl
      have hs := handle_positive_response_snd handle message
        { fresh_response arbitration_id with mode := byte_at message.payload 0 }
      by_cases hpos : positive_match handle message = true
      · left
        have hmode := ((handle_positive_response_fst handle message _).1 (hv.trans hpos)).1
        rw [hv, hpos, if_pos hmode] at hs
        simp only [fresh_response, if_true] at hv hs
        refine ⟨hsz, hneg, hpos, ?_, ?_, ?_, ?_⟩ <;>
          simp [r, completed_message_outcome, handle_negative_response, fresh_response, hsz,
            hneg, hv, hpos, hs]
      · right
        have hposf : positive_match handle message = false := by simpa using hpos
        rw [hv, hposf] at hs
        simp only [fresh_response] at hv hs
        refine ⟨Or.inr ⟨hneg, hposf⟩, ?_, ?_, ?_, ?_⟩ <;>
          simp [r, completed_message_outcome, handle_negative_response, fresh_response, hsz,
            hneg, hv, hposf, hs] <;>
          split <;>
          simp [positive_response_fields_completed, positive_response_fields_success]
  · right; right
    have h0 : message.size = 0 := by omega
    refine ⟨Or.inl h0, ?_, ?_, ?_, ?_⟩ <;>
      simp [r, completed_message_outcome, fresh_response, h0]

theorem positive_match_congr {S R : Type} (handle handle2 : DiagnosticRequestHandle S R)
    (message : IsoTpMessage) (hreq : handle2.request = handle.request) :
    positive_match handle2 message = positive_match handle message := by
  rw [← positive_verdict_eq handle2 handle2 message 0 rfl,
    positive_verdict_eq handle handle2 message 0 hreq]

/-- What a call in the receiving state does when no session reports a completed
message: nothing but feeding the sessions. -/
theorem receive_of_no_message {S R : Type} (T : IsoTp S R)
    (handle : DiagnosticRequestHandle S R) (arbitration_id : Nat) (data : List Nat)
    (size : Nat) (hs : T.send_completed handle.isotp_send_handle = true)
    (hnone : (continue_receive_sessions T arbitration_id data size
      (handle.isotp_receive_handles.take handle.isotp_receive_handle_count)).2 = none) :
    (receive_outcome T handle arbitration_id data size).response
        = fresh_response arbitration_id ∧
    (receive_outcome T handle arbitration_id data size).handle.success
        = handle.success ∧
    (receive_outcome T handle arbitration_id data size).handle.completed
        = handle.completed ∧
    (receive_outcome T handle arbitration_id data size).callback_calls = [] := by
  simp [receive_outcome, hs, hnone]

/-- What a call does when a session reports `message`: the three outcomes of
the classification, on the flags of the handle, the response and the callback. -/
theorem receive_cases {S R : Type} (T : IsoTp S R)
    (handle : DiagnosticRequestHandle S R) (arbitration_id : Nat) (data : List Nat)
    (size : Nat) (message : IsoTpMessage)
    (hre : Reassembles T handle arbitration_id data size message) :
    let r := receive_outcome T handle arbitration_id data size
    (message.size > 0 ∧ byte_at message.payload 0 = NEGATIVE_RESPONSE_MODE ∧
        r.handle.success = true ∧ r.handle.completed = true ∧
        r.response.completed = true ∧ r.response.success = false ∧
        r.callback_calls = (if handle.callback = true then [r.response] else [])) ∨
    (message.size > 0 ∧ byte_at message.payload 0 ≠ NEGATIVE_RESPONSE_MODE ∧
        positive_match handle message = true ∧
        r.handle.success = true ∧ r.handle.completed = true ∧
        r.response.completed = true ∧ r.response.success = true ∧
        r.callback_calls = (if handle.callback = true then [r.response] else [])) ∨
    ((message.size = 0 ∨ (byte_at message.payload 0 ≠ NEGATIVE_RESPONSE_MODE ∧
          positive_match handle message = false)) ∧
        r.handle.success = handle.success ∧ r.handle.completed = handle.completed ∧
        r.response.completed = false ∧ r.response.success = false ∧
        r.callback_calls =
          (if handle.completed = true ∧ handle.callback = true then [r.response] else [])) := by
  intro r
  have hr : r = _ := receive_of_reassembles T handle arbitration_id data size message hre
  have hm := positive_match_congr handle
    { handle with
      isotp_receive_handles :=
        (continue_receive_sessions T arbitration_id data size
          (handle.isotp_receive_handles.take handle.isotp_receive_handle_count)).1
        ++ handle.isotp_receive_handles.drop handle.isotp_receive_handle_count }
    message rfl
  rcases completed_message_outcome_cases
    { handle with
      isotp_receive_handles :=
        (continue_receive_sessions T arbitration_id data size
          (handle.isotp_receive_handles.take handle.isotp_receive_handle_count)).1
        ++ handle.isotp_receive_handles.drop handle.isotp_receive_handle_count }
    message arbitration_id with h | h | h
  · obtain ⟨h1, h2, h3, h4, h5, h6⟩ := h
    left
    rw [← hr] at h3 h4 h5 h6
    exact ⟨h1, h2, by rw [h3], by rw [h3], h4, h5, h6⟩
  · obtain ⟨h1, h2, hp, h3, h4, h5, h6⟩ := h
    right; left
    rw [← hr] at h3 h4 h5 h6
    rw [hm] at hp
    exact ⟨h1, h2, hp, by rw [h3], by rw [h3], h4, h5, h6⟩
  · obtain ⟨h1, h3, h4, h5, h6⟩ := h
    right; right
    rw [← hr] at h3 h4 h5 h6
    rw [hm] at h1
    exact ⟨h1, by rw [h3], by rw [h3], h4, h5, h6⟩

/-- The response to a message that carries the awaited mode and PID. -/
theorem receive_positive_match {S R : Type} (T : IsoTp S R)
    (handle : DiagnosticRequestHandle S R) (arbitration_id : Nat) (data : List Nat)
    (size : Nat) (message : IsoTpMessage) (L p : Nat) (d : List Nat)
    (hre : Reassembles T handle arbitration_id data size message)
    (hpid : handle.request.has_pid = true)
    (hL : L = 1 ∨ L = 2) (hlen : handle.request.pid_length = L)
    (hp : handle.request.pid = p) (hfit : p < 256 ^ L)
    (hbytes : message.payload =
      (handle.request.mode + MODE_RESPONSE_OFFSET) :: (be_bytes L p ++ d))
    (hsize : message.size = message.payload.length)
    (hmode : handle.request.mode ≠ 0x3f) :
    (receive_outcome T handle arbitration_id data size).response =
      { fresh_response arbitration_id with
        mode := handle.request.mode, has_pid := true, pid := p, payload := d,
        payload_length := d.length, success := true, completed := true } := by
  rw [receive_of_reassembles T handle arbitration_id data size message hre]
  have hnn : ¬ handle.request.mode + 64 = 127 := by omega
  rcases hL with rfl | rfl
  · have hp1 : p % 256 = p := Nat.mod_eq_of_lt (by simpa using hfit)
    simp only [be_bytes_one, hp1] at hbytes
    have hsz : message.size = 2 + d.length := by simp [hsize, hbytes]; omega
    have h1 : 1 < 2 + d.length := by omega
    simp [completed_message_outcome, handle_negative_response, handle_positive_response,
        positive_response_fields_eq,
        fresh_response, hbytes, hsz, hpid, hlen, hp, byte_at, hnn, h1]
  · have hp2 : p / 256 % 256 = p / 256 := Nat.mod_eq_of_lt (by omega)
    have hp3 : p / 256 * 256 + p % 256 = p := by omega
    have hp4 : p % 65536 = p := by omega
    simp only [be_bytes_two, hp2] at hbytes
    have hsz : message.size = 3 + d.length := by simp [hsize, hbytes]; omega
    have h1 : 1 < 3 + d.length := by omega
    simp [completed_message_outcome, handle_negative_response, handle_positive_response,
        positive_response_fields_eq, get_bitfield_pid16,
        fresh_response, hbytes, hsz, hpid, hlen, hp, byte_at, hnn, h1, hp3, hp4]


/-- The verdict on a message that carries the awaited mode and another PID. -/
theorem positive_match_of_other_pid {S R : Type} (handle : DiagnosticRequestHandle S R)
    (message : IsoTpMessage) (L q : Nat) (d : List Nat)
    (hpid : handle.request.has_pid = true)
    (hL : L = 1 ∨ L = 2) (hlen : handle.request.pid_length = L)
    (hq : q < 256 ^ L) (hne : q ≠ handle.request.pid)
    (hbytes : message.payload =
      (handle.request.mode + MODE_RESPONSE_OFFSET) :: (be_bytes L q ++ d))
    (hsize : message.size = message.payload.length) :
    positive_match handle message = false := by
  rw [← Bool.not_eq_true, positive_match, handle_positive_response_fst]
  rintro ⟨-, h⟩
  rcases h with ⟨hno, -⟩ | hsame
  · rw [hpid] at hno
    exact Bool.noConfusion hno
  · apply hne
    rw [← hsame]
    rcases hL with rfl | rfl
    · have hq1 : q % 256 = q := Nat.mod_eq_of_lt (by simpa using hq)
      simp only [be_bytes_one, hq1] at hbytes
      have hsz : message.size = 2 + d.length := by simp [hsize, hbytes]; omega
      have h1 : 1 < 2 + d.length := by omega
      simp [positive_response_fields_eq, fresh_response, hbytes, hsz, hpid, hlen, byte_at, h1]
    · have hq2 : q / 256 % 256 = q / 256 := Nat.mod_eq_of_lt (by omega)
      have hq3 : q / 256 * 256 + q % 256 = q := by omega
      have hq4 : q % 65536 = q := by omega
      simp only [be_bytes_two, hq2] at hbytes
      have hsz : message.size = 3 + d.length := by simp [hsize, hbytes]; omega
      have h1 : 1 < 3 + d.length := by omega
      simp [positive_response_fields_eq, get_bitfield_pid16, fresh_response, hbytes, hsz,
        hpid, hlen, byte_at, h1, hq3, hq4]

/-- A call never changes the request the handle embeds. -/
theorem receive_request {S R : Type} (T : IsoTp S R)
    (handle : DiagnosticRequestHandle S R) (arbitration_id : Nat) (data : List Nat)
    (size : Nat) :
    (receive_outcome T handle arbitration_id data size).handle.request
      = handle.request := by
  unfold receive_outcome
  simp only []
  split
  · rfl
  · split
    · rfl
    · simp only [completed_message_outcome]
      split
      · split
        · rfl
        · split <;> rfl
      · rfl

/-- What `diagnostic_request` puts in the handle it returns. -/
theorem diagnostic_request_some {S R : Type} (T : IsoTp S R) (request : DiagnosticRequest)
    (callback : Bool) (handle : DiagnosticRequestHandle S R)
    (h : diagnostic_request T request callback = some handle) :
    handle.request = { request with pid_length := resolved_pid_length request } ∧
    handle.success = false ∧ handle.completed = false ∧ handle.callback = callback := by
  unfold diagnostic_request at h
  split at h
  · exact Option.noConfusion h
  · have h2 := Option.some.inj h
    subst h2
    unfold setup_receive_handle
    split <;> exact ⟨rfl, rfl, rfl, rfl⟩

/-- A call on a message that carries the awaited mode and another PID leaves
the handle waiting. -/
theorem receive_pid_mismatch {S R : Type} (T : IsoTp S R)
    (handle : DiagnosticRequestHandle S R) (arbitration_id : Nat) (data : List Nat)
    (size : Nat) (message : IsoTpMessage) (L q : Nat) (d : List Nat)
    (hre : Reassembles T handle arbitration_id data size message)
    (hpid : handle.request.has_pid = true)
    (hL : L = 1 ∨ L = 2) (hlen : handle.request.pid_length = L)
    (hq : q < 256 ^ L) (hne : q ≠ handle.request.pid)
    (hbytes : message.payload =
      (handle.request.mode + MODE_RESPONSE_OFFSET) :: (be_bytes L q ++ d))
    (hsize : message.size = message.payload.length)
    (hmode : handle.request.mode ≠ 0x3f) :
    positive_match handle message = false ∧
    (receive_outcome T handle arbitration_id data size).response.success = false ∧
    (receive_outcome T handle arbitration_id data size).response.completed
      = false ∧
    (receive_outcome T handle arbitration_id data size).handle.success
      = handle.success ∧
    (receive_outcome T handle arbitration_id data size).handle.completed
      = handle.completed := by
  have hpm := positive_match_of_other_pid handle message L q d hpid hL hlen hq hne hbytes hsize
  have hb0 : byte_at message.payload 0 ≠ NEGATIVE_RESPONSE_MODE := by
    simp only [hbytes, byte_at, List.getD_cons_zero, MODE_RESPONSE_OFFSET,
      NEGATIVE_RESPONSE_MODE]
    omega
  rcases receive_cases T handle arbitration_id data size message hre with h | h | h
  · exact absurd h.2.1 hb0
  · rw [hpm] at h
    exact Bool.noConfusion h.2.2.1
  · obtain ⟨-, h3, h4, h5, h6, -⟩ := h
    exact ⟨hpm, h6, h5, h3, h4⟩

/-- The receive sessions of the handle `diagnostic_request` returns. -/
theorem diagnostic_request_sessions {S R : Type} (T : IsoTp S R)
    (request : DiagnosticRequest) (callback : Bool) (handle : DiagnosticRequestHandle S R)
    (h : diagnostic_request T request callback = some handle) :
    handle.isotp_receive_handle_count =
      (if request.arbitration_id = OBD2_FUNCTIONAL_BROADCAST_ID then
        OBD2_FUNCTIONAL_RESPONSE_COUNT else 1) ∧
    handle.isotp_receive_handles =
      (if request.arbitration_id = OBD2_FUNCTIONAL_BROADCAST_ID then
        (List.range OBD2_FUNCTIONAL_RESPONSE_COUNT).map
          (fun response_id => T.isotp_receive (OBD2_FUNCTIONAL_RESPONSE_START + response_id))
      else [T.isotp_receive (request.arbitration_id + ARBITRATION_ID_OFFSET)]) := by
  unfold diagnostic_request at h
  split at h
  · exact Option.noConfusion h
  · have h2 := Option.some.inj h
    subst h2
    unfold setup_receive_handle
    split <;> exact ⟨rfl, rfl⟩

/-- The layout of the buffer `diagnostic_request` hands to `isotp_send`, for a
request within the 6-byte budget. -/
theorem request_layout {S R : Type} (T : IsoTp S R) (request : DiagnosticRequest)
    (callback : Bool)
    (hbudget : 1 + resolved_pid_length request + request.payload_length
      ≤ MAX_DIAGNOSTIC_PAYLOAD_SIZE)
    (hfit : request.has_pid = true → request.pid < 256 ^ resolved_pid_length request)
    (hpayload : request.payload_length ≤ request.payload.length) :
    ∃ buffer : List Nat,
      request_buffer request = some buffer ∧
      buffer.length = MAX_DIAGNOSTIC_PAYLOAD_SIZE ∧
      (diagnostic_request T request callback).map (fun handle => handle.isotp_send_handle) =
        some (T.isotp_send request.arbitration_id buffer
          (1 + resolved_pid_length request + request.payload_length)) ∧
      byte_at buffer 0 = request.mode ∧
      (request.has_pid = true →
        (buffer.drop 1).take (resolved_pid_length request) =
          be_bytes (resolved_pid_length request) request.pid) ∧
      (request.has_pid = false →
        (buffer.drop 1).take (resolved_pid_length request) =
          List.replicate (resolved_pid_length request) 0) ∧
      (buffer.drop (1 + resolved_pid_length request)).take request.payload_length =
        request.payload.take request.payload_length := by
  obtain ⟨staged, hlen, hmode, hpidb, hnopid, hbuf⟩ :=
    request_buffer_eq request hbudget hfit hpayload
  have hsrc : (request.payload.take request.payload_length).length = request.payload_length := by
    simp [List.length_take]; omega
  have hin : 1 + resolved_pid_length request
      + (request.payload.take request.payload_length).length ≤ staged.length := by
    rw [hsrc, hlen]; exact hbudget
  have hsplice_take := splice_take staged (request.payload.take request.payload_length)
    (1 + resolved_pid_length request) hin
  have hsplice_len := splice_length staged (request.payload.take request.payload_length)
    (1 + resolved_pid_length request) hin
  have hsplice_mid := splice_drop_take staged (request.payload.take request.payload_length)
    (1 + resolved_pid_length request) hin
  rw [hsrc] at hsplice_take hsplice_len hsplice_mid
  refine ⟨_, hbuf, ?_, ?_, ?_, ?_, ?_, hsplice_mid⟩
  · rw [hsplice_len, hlen]
  · have hsize : request_size request =
        1 + resolved_pid_length request + request.payload_length := by
      unfold request_size; omega
    simp only [diagnostic_request, hbuf, hsize, Option.map_some', setup_receive_handle_send]
  · have h1 : List.take 1 (List.take (1 + resolved_pid_length request)
        (List.take (1 + resolved_pid_length request) staged
          ++ List.take request.payload_length request.payload
          ++ List.drop (1 + resolved_pid_length request + request.payload_length) staged))
        = [request.mode] := by
      rw [hsplice_take, List.take_take, Nat.min_eq_left (by omega), hmode]
    rw [List.take_take, Nat.min_eq_left (by omega)] at h1
    exact byte_at_zero_of_take _ _ h1
  · intro h
    rw [take_drop_one, hsplice_take, ← take_drop_one]
    exact hpidb h
  · intro h
    rw [take_drop_one, hsplice_take, ← take_drop_one, hnopid h]
    have hL : resolved_pid_length request ≤ 5 := by
      simp only [MAX_DIAGNOSTIC_PAYLOAD_SIZE] at hbudget; omega
    generalize resolved_pid_length request = L at hL
    interval_cases L <;> rfl

/-- One call either leaves both flags of the handle as they were or sets both
to true. -/
theorem receive_flags {S R : Type} (T : IsoTp S R)
    (handle : DiagnosticRequestHandle S R) (arbitration_id : Nat) (data : List Nat)
    (size : Nat) :
    ((receive_outcome T handle arbitration_id data size).handle.success
        = handle.success ∧
      (receive_outcome T handle arbitration_id data size).handle.completed
        = handle.completed) ∨
    ((receive_outcome T handle arbitration_id data size).handle.success = true ∧
      (receive_outcome T handle arbitration_id data size).handle.completed
        = true) := by
  cases hs : T.send_completed handle.isotp_send_handle with
  | false =>
    left
    rw [receive_of_sending T handle arbitration_id data size hs]
    exact ⟨rfl, rfl⟩
  | true =>
    cases hfed : (continue_receive_sessions T arbitration_id data size
        (handle.isotp_receive_handles.take handle.isotp_receive_handle_count)).2 with
    | none =>
      left
      obtain ⟨-, h2, h3, -⟩ := receive_of_no_message T handle arbitration_id data size hs hfed
      exact ⟨h2, h3⟩
    | some message =>
      rcases receive_cases T handle arbitration_id data size message ⟨hs, hfed⟩ with h | h | h
      · exact Or.inr ⟨h.2.2.1, h.2.2.2.1⟩
      · exact Or.inr ⟨h.2.2.2.1, h.2.2.2.2.1⟩
      · exact Or.inl ⟨h.2.1, h.2.2.1⟩

/-- Feeding frames keeps `success = completed`. -/
theorem feed_outcome_flags {S R : Type} (T : IsoTp S R)
    (handle : DiagnosticRequestHandle S R) (frames : List CanFrame)
    (h : handle.success = handle.completed) :
    (feed_outcome T handle frames).handle.success
      = (feed_outcome T handle frames).handle.completed := by
  induction frames generalizing handle with
  | nil => exact h
  | cons frame rest ih =>
    simp only [feed_outcome]
    apply ih
    rcases receive_flags T handle frame.arbitration_id frame.data frame.size with hf | hf
    · rw [hf.1, hf.2, h]
    · rw [hf.1, hf.2]

/-- On every handle the engine produces, `success = completed`. -/
theorem engine_flags {S R : Type} (T : IsoTp S R) (request : DiagnosticRequest)
    (callback : Bool) (start : DiagnosticRequestHandle S R) (frames : List CanFrame)
    (hstart : diagnostic_request T request callback = some start) :
    (feed_outcome T start frames).handle.success
      = (feed_outcome T start frames).handle.completed := by
  obtain ⟨-, hs, hc, -⟩ := diagnostic_request_some T request callback start hstart
  exact feed_outcome_flags T start frames (by rw [hs, hc])

/-- A request without payload is always encoded: `diagnostic_request` returns
a handle. -/
theorem diagnostic_request_without_payload {S R : Type} (T : IsoTp S R)
    (request : DiagnosticRequest) (callback : Bool) (h : request.payload_length = 0) :
    ∃ handle : DiagnosticRequestHandle S R,
      diagnostic_request T request callback = some handle := by
  have hb : ∃ b, request_buffer request = some b := by
    simp [request_buffer, h]
  obtain ⟨b, hb⟩ := hb
  simp only [diagnostic_request, hb]
  exact ⟨_, rfl⟩

/-- What `handle_positive_response` does with a message that answers a request
without PID. -/
theorem positive_response_without_pid {S R : Type} (handle : DiagnosticRequestHandle S R)
    (message : IsoTpMessage) (arbitration_id : Nat)
    (hpid : handle.request.has_pid = false) (hlen : handle.request.pid_length = 0)
    (hn : 1 ≤ message.size) (hsize : message.size = message.payload.length)
    (h0 : byte_at message.payload 0 = handle.request.mode + MODE_RESPONSE_OFFSET) :
    handle_positive_response handle message
        { fresh_response arbitration_id with mode := byte_at message.payload 0 } =
      (true,
        { fresh_response arbitration_id with
          mode := handle.request.mode, has_pid := false,
          payload := message.payload.drop 1, payload_length := message.size - 1,
          success := true, completed := true }) := by
  have hdrop : (if 1 < message.payload.length then
      List.take (message.payload.length - 1) message.payload.tail else [])
      = message.payload.tail := by
    split
    · rw [List.take_of_length_le]
      simp
    · next h =>
      symm
      rw [← List.drop_one]
      apply List.drop_eq_nil_of_le
      omega
  simp [handle_positive_response, positive_response_fields_eq, fresh_response, h0, hpid, hlen,
    hsize, hdrop]

/-- The payload fields `handle_positive_response` leaves once the mode has
matched, whatever its verdict. -/
theorem handle_positive_response_payload {S R : Type} (handle : DiagnosticRequestHandle S R)
    (message : IsoTpMessage) (response : DiagnosticResponse)
    (hmode : response.mode = handle.request.mode + MODE_RESPONSE_OFFSET) :
    (handle_positive_response handle message response).2.payload_length =
      message.size - (1 + handle.request.pid_length) % 256 ∧
    (handle_positive_response handle message response).2.payload =
      (if message.size - (1 + handle.request.pid_length) % 256 > 0 then
        (message.payload.drop ((1 + handle.request.pid_length) % 256)).take
          (message.size - (1 + handle.request.pid_length) % 256)
      else response.payload) := by
  rw [handle_positive_response_snd, if_pos hmode]
  split <;> simp [positive_response_fields_eq]

/-- A call on a message that starts with 0x7F: the response is the negative
response, whatever the handle, and the handle is completed. -/
theorem receive_negative {S R : Type} (T : IsoTp S R)
    (handle : DiagnosticRequestHandle S R) (arbitration_id : Nat) (data : List Nat)
    (size : Nat) (message : IsoTpMessage)
    (hre : Reassembles T handle arbitration_id data size message)
    (hn : 1 ≤ message.size)
    (h0 : byte_at message.payload 0 = NEGATIVE_RESPONSE_MODE) :
    (receive_outcome T handle arbitration_id data size).response =
      { fresh_response arbitration_id with
        mode := if message.size > 1 then byte_at message.payload 1 else NEGATIVE_RESPONSE_MODE
        negative_response_code := if message.size > 2 then byte_at message.payload 2 else 0
        success := false
        completed := true } ∧
    (receive_outcome T handle arbitration_id data size).handle.success = true ∧
    (receive_outcome T handle arbitration_id data size).handle.completed
      = true := by
  rw [receive_of_reassembles T handle arbitration_id data size message hre]
  have hpos : 0 < message.size := hn
  refine ⟨?_, ?_, ?_⟩ <;>
    simp [completed_message_outcome, handle_negative_response, fresh_response, hpos, h0]

/-- Feeding two runs of frames is feeding the first, then the second. -/
theorem feed_outcome_concat {S R : Type} (T : IsoTp S R)
    (handle : DiagnosticRequestHandle S R) (before after : List CanFrame) :
    (feed_outcome T handle (before ++ after)).handle =
      (feed_outcome T (feed_outcome T handle before).handle after).handle := by
  induction before generalizing handle with
  | nil => rfl
  | cons first rest ih =>
    have e : first :: rest ++ after = first :: (rest ++ after) := rfl
    rw [e]
    simp only [feed_outcome]
    exact ih _

/-- Feeding frames never clears a flag that is set. -/
theorem feed_outcome_monotone {S R : Type} (T : IsoTp S R)
    (handle : DiagnosticRequestHandle S R) (frames : List CanFrame) :
    (handle.success = true → (feed_outcome T handle frames).handle.success = true) ∧
    (handle.completed = true → (feed_outcome T handle frames).handle.completed = true) := by
  induction frames generalizing handle with
  | nil => exact ⟨id, id⟩
  | cons frame rest ih =>
    simp only [feed_outcome]
    have hstep := receive_flags T handle frame.arbitration_id frame.data frame.size
    have hrest := ih (receive_outcome T handle frame.arbitration_id frame.data
      frame.size).handle
    constructor
    · intro h
      apply hrest.1
      rcases hstep with hf | hf
      · rw [hf.1, h]
      · exact hf.1
    · intro h
      apply hrest.2
      rcases hstep with hf | hf
      · rw [hf.2, h]
      · exact hf.2

/-- What `handle_positive_response` does with a one-byte message that answers
a request with PID: no PID is decoded, and the pid the response starts with, 0,
is the one compared with the request's. -/
theorem positive_response_one_byte {S R : Type} (handle : DiagnosticRequestHandle S R)
    (message : IsoTpMessage) (arbitration_id : Nat)
    (hpid : handle.request.has_pid = true) (hL : handle.request.pid_length < 255)
    (hsz : message.size = 1)
    (h0 : byte_at message.payload 0 = handle.request.mode + MODE_RESPONSE_OFFSET) :
    handle_positive_response handle message
        { fresh_response arbitration_id with mode := byte_at message.payload 0 } =
      (decide (handle.request.pid = 0),
        { fresh_response arbitration_id with
          mode := handle.request.mode
          success := decide (handle.request.pid = 0)
          completed := decide (handle.request.pid = 0) }) := by
  have hidx : (1 + handle.request.pid_length) % 256 = 1 + handle.request.pid_length :=
    Nat.mod_eq_of_lt (by omega)
  have hzero : 1 - (1 + handle.request.pid_length) = 0 := by omega
  by_cases hp : handle.request.pid = 0
  · simp [handle_positive_response, positive_response_fields_eq, fresh_response, h0, hpid, hsz,
      hidx, hzero, hp]
  · have hp2 : ¬ 0 = handle.request.pid := fun h => hp h.symm
    simp [handle_positive_response, positive_response_fields_eq, fresh_response, h0, hpid, hsz,
      hidx, hzero, hp, hp2]

/-! ### What a call leaves behind when its log call returns -/

/-- The response a call leaves for a message of size `n >= 1` that starts with
0x7F, when its log call returns: the fields are read under the size guards of
lines 150-157, and any call that reassembles a message of the same size with
the same first `n` bytes leaves the same response. -/
theorem receive_negative_classified {S R : Type} (T : IsoTp S R)
    (handle : DiagnosticRequestHandle S R) (arbitration_id : Nat) (data : List Nat)
    (size : Nat) (message : IsoTpMessage)
    (hre : Reassembles T handle arbitration_id data size message)
    (hn : 1 ≤ message.size)
    (h0 : byte_at message.payload 0 = NEGATIVE_RESPONSE_MODE) :
    (receive_outcome T handle arbitration_id data size).response.success = false ∧
    (receive_outcome T handle arbitration_id data size).response.completed = true ∧
    (receive_outcome T handle arbitration_id data size).response.mode =
      (if message.size > 1 then byte_at message.payload 1 else NEGATIVE_RESPONSE_MODE) ∧
    (receive_outcome T handle arbitration_id data size).response.negative_response_code =
      (if message.size > 2 then byte_at message.payload 2 else 0) ∧
    (∀ {S2 R2 : Type} (T2 : IsoTp S2 R2) (handle2 : DiagnosticRequestHandle S2 R2)
        (data2 : List Nat) (size2 : Nat) (message2 : IsoTpMessage),
      Reassembles T2 handle2 arbitration_id data2 size2 message2 →
      message2.size = message.size →
      (∀ i, i < message.size → byte_at message2.payload i = byte_at message.payload i) →
      (receive_outcome T2 handle2 arbitration_id data2 size2).response =
        (receive_outcome T handle arbitration_id data size).response) := by
  rw [receive_of_reassembles T handle arbitration_id data size message hre]
  have hpos : 0 < message.size := hn
  refine ⟨?_, ?_, ?_, ?_, ?_⟩
  · simp [completed_message_outcome, handle_negative_response, fresh_response, hpos, h0]
  · simp [completed_message_outcome, handle_negative_response, fresh_response, hpos, h0]
  · simp [completed_message_outcome, handle_negative_response, fresh_response, hpos, h0]
  · simp [completed_message_outcome, handle_negative_response, fresh_response, hpos, h0]
  · intro S2 R2 T2 handle2 data2 size2 message2 hre2 hsz hagree
    rw [receive_of_reassembles T2 handle2 arbitration_id data2 size2 message2 hre2]
    have hpos2 : 0 < message2.size := by omega
    have h02 : byte_at message2.payload 0 = NEGATIVE_RESPONSE_MODE := by
      rw [hagree 0 hpos]; exact h0
    simp only [completed_message_outcome, handle_negative_response, fresh_response, hpos, hpos2,
      h0, h02, if_true, gt_iff_lt, hsz]
    by_cases h1 : 1 < message.size
    · by_cases h2 : 2 < message.size
      · simp [h1, h2, hagree 1 h1, hagree 2 h2]
      · simp [h1, h2, hagree 1 h1]
    · have h2 : ¬ 2 < message.size := by omega
      simp [h1, h2]

/-- What a call leaves behind, when its log call returns, for a handle with
`completed = false` whose send session is complete: the response has
`completed = true` exactly when a session reports a completed non-empty message
that is negative or a positive match; then both flags of the handle are true
and the callback, if present, is handed the response once; otherwise the
callback is not invoked and the flags are as before. -/
theorem receive_completion {S R : Type} (T : IsoTp S R)
    (handle : DiagnosticRequestHandle S R) (arbitration_id : Nat) (data : List Nat)
    (size : Nat)
    (hc : handle.completed = false)
    (hs : T.send_completed handle.isotp_send_handle = true) :
    ((receive_outcome T handle arbitration_id data size).response.completed = true ↔
      ∃ message, Reassembles T handle arbitration_id data size message ∧ message.size > 0 ∧
        (byte_at message.payload 0 = NEGATIVE_RESPONSE_MODE ∨
          positive_match handle message = true)) ∧
    ((receive_outcome T handle arbitration_id data size).response.completed = true →
      (receive_outcome T handle arbitration_id data size).handle.success = true ∧
      (receive_outcome T handle arbitration_id data size).handle.completed = true ∧
      (receive_outcome T handle arbitration_id data size).callback_calls =
        (if handle.callback = true then
          [(receive_outcome T handle arbitration_id data size).response]
        else []) ∧
      (∀ message, Reassembles T handle arbitration_id data size message →
        byte_at message.payload 0 = NEGATIVE_RESPONSE_MODE →
        (receive_outcome T handle arbitration_id data size).response.success
          = false)) ∧
    ((receive_outcome T handle arbitration_id data size).response.completed = false →
      (receive_outcome T handle arbitration_id data size).callback_calls = [] ∧
      (receive_outcome T handle arbitration_id data size).handle.success
        = handle.success ∧
      (receive_outcome T handle arbitration_id data size).handle.completed
        = false) := by
  cases hfed : (continue_receive_sessions T arbitration_id data size
      (handle.isotp_receive_handles.take handle.isotp_receive_handle_count)).2 with
  | none =>
    obtain ⟨h1, h2, h3, h4⟩ := receive_of_no_message T handle arbitration_id data size hs hfed
    refine ⟨?_, ?_, ?_⟩
    · constructor
      · intro h
        rw [h1] at h
        simp [fresh_response] at h
      · rintro ⟨message, ⟨-, hm⟩, -⟩
        rw [hfed] at hm
        exact Option.noConfusion hm
    · intro h
      rw [h1] at h
      simp [fresh_response] at h
    · intro _
      exact ⟨h4, h2, by rw [h3, hc]⟩
  | some message =>
    have hre : Reassembles T handle arbitration_id data size message := ⟨hs, hfed⟩
    have huniq : ∀ m, Reassembles T handle arbitration_id data size m → m = message := by
      rintro m ⟨-, hm⟩
      rw [hfed] at hm
      exact (Option.some.inj hm).symm
    rcases receive_cases T handle arbitration_id data size message hre with h | h | h
    · obtain ⟨h1, h2, h3, h4, h5, h6, h7⟩ := h
      refine ⟨⟨fun _ => ⟨message, hre, h1, Or.inl h2⟩, fun _ => h5⟩, ?_, ?_⟩
      · intro _
        exact ⟨h3, h4, h7, fun _ _ _ => h6⟩
      · intro hf
        rw [h5] at hf
        exact Bool.noConfusion hf
    · obtain ⟨h1, h2, hp, h3, h4, h5, h6, h7⟩ := h
      refine ⟨⟨fun _ => ⟨message, hre, h1, Or.inr hp⟩, fun _ => h5⟩, ?_, ?_⟩
      · intro _
        refine ⟨h3, h4, h7, ?_⟩
        intro m hm hneg
        rw [huniq m hm] at hneg
        exact absurd hneg h2
      · intro hf
        rw [h5] at hf
        exact Bool.noConfusion hf
    · obtain ⟨h1, h3, h4, h5, h6, h7⟩ := h
      refine ⟨⟨?_, ?_⟩, ?_, ?_⟩
      · intro hf
        rw [h5] at hf
        exact Bool.noConfusion hf
      · rintro ⟨m, hm, hsz, hcls⟩
        rw [huniq m hm] at hsz hcls
        rcases h1 with h0 | ⟨hnn, hnp⟩
        · omega
        · rcases hcls with hneg | hpos
          · exact absurd hneg hnn
          · rw [hnp] at hpos
            exact Bool.noConfusion hpos
      · intro hf
        rw [h5] at hf
        exact Bool.noConfusion hf
      · intro _
        refine ⟨?_, h3, by rw [h4, hc]⟩
        rw [h7, hc]
        simp

/-- What a call leaves behind, when its log call returns, for a completed
message that is empty or whose first byte is neither 0x7F nor
`request.mode + 0x40`: the handle's flags as they were and a response with
`success = false` and `completed = false`. -/
theorem receive_irrelevant {S R : Type} (T : IsoTp S R)
    (handle : DiagnosticRequestHandle S R) (arbitration_id : Nat) (data : List Nat)
    (size : Nat) (message : IsoTpMessage)
    (hre : Reassembles T handle arbitration_id data size message)
    (hirr : message.size = 0 ∨
      (byte_at message.payload 0 ≠ NEGATIVE_RESPONSE_MODE ∧
        byte_at message.payload 0 ≠ handle.request.mode + MODE_RESPONSE_OFFSET)) :
    (receive_outcome T handle arbitration_id data size).handle.success
      = handle.success ∧
    (receive_outcome T handle arbitration_id data size).handle.completed
      = handle.completed ∧
    (receive_outcome T handle arbitration_id data size).response.success = false ∧
    (receive_outcome T handle arbitration_id data size).response.completed
      = false := by
  have hnot : message.size > 0 → byte_at message.payload 0 ≠ NEGATIVE_RESPONSE_MODE ∧
      positive_match handle message ≠ true := by
    intro hsz
    rcases hirr with h0 | ⟨hnn, hnm⟩
    · omega
    · refine ⟨hnn, ?_⟩
      intro hp
      have := ((handle_positive_response_fst handle message _).1 hp).1
      exact hnm this
  rcases receive_cases T handle arbitration_id data size message hre with h | h | h
  · exact absurd h.2.1 (hnot h.1).1
  · exact absurd h.2.2.1 (hnot h.1).2
  · obtain ⟨-, h3, h4, h5, h6, -⟩ := h
    exact ⟨h3, h4, h6, h5⟩

/-- The two calls of the broadcast trace, when their log calls return: the
handle `diagnostic_request` returns for a functional-broadcast request of mode
0x01 with a one-byte pid `p` stays incomplete on `[0x41, q, ...]` with
`q != p` and is completed by `[0x41, p] ++ d`, with `pid = p` and
`payload = d` in the response. -/
theorem broadcast_trace {S R : Type} (T : IsoTp S R)
    (request : DiagnosticRequest) (callback : Bool) (handle : DiagnosticRequestHandle S R)
    (p q : Nat) (tail d : List Nat)
    (id1 : Nat) (data1 : List Nat) (size1 : Nat) (message1 : IsoTpMessage)
    (id2 : Nat) (data2 : List Nat) (size2 : Nat) (message2 : IsoTpMessage)
    (harb : request.arbitration_id = OBD2_FUNCTIONAL_BROADCAST_ID)
    (hmode : request.mode = 0x01) (hpid : request.has_pid = true)
    (hp : request.pid = p) (hp1 : p < 256) (hL : request.pid_length ≤ 1)
    (hhandle : diagnostic_request T request callback = some handle)
    (hre1 : Reassembles T handle id1 data1 size1 message1)
    (hm1 : message1.payload = 0x41 :: q :: tail)
    (hs1 : message1.size = message1.payload.length)
    (hq : q < 256) (hqp : q ≠ p)
    (hre2 : Reassembles T (receive_outcome T handle id1 data1 size1).handle
      id2 data2 size2 message2)
    (hm2 : message2.payload = 0x41 :: p :: d)
    (hs2 : message2.size = message2.payload.length) :
    handle.isotp_receive_handle_count = OBD2_FUNCTIONAL_RESPONSE_COUNT ∧
    (receive_outcome T handle id1 data1 size1).handle.completed = false ∧
    (receive_outcome T handle id1 data1 size1).response.completed = false ∧
    (receive_outcome T
      (receive_outcome T handle id1 data1 size1).handle
      id2 data2 size2).handle.completed = true ∧
    (receive_outcome T
      (receive_outcome T handle id1 data1 size1).handle
      id2 data2 size2).response =
      { fresh_response id2 with
        mode := 0x01, has_pid := true, pid := p, payload := d, payload_length := d.length,
        success := true, completed := true } := by
  obtain ⟨hreq, -, hcomp, -⟩ := diagnostic_request_some T request callback handle hhandle
  have hcount := (diagnostic_request_sessions T request callback handle hhandle).1
  rw [if_pos harb] at hcount
  have hres : resolved_pid_length request = 1 := by
    unfold resolved_pid_length autoset_pid_length
    rw [if_pos hpid, hmode, hp]
    have : request.pid_length = 0 ∨ request.pid_length = 1 := by omega
    have hnot : ¬ (p > 0xffff ∨ 0x01 > 10) := by omega
    rcases this with h | h
    · rw [if_pos h, if_neg hnot]
    · rw [h]
      rfl
  have hreq_mode : handle.request.mode = 0x01 := by rw [hreq]; exact hmode
  have hreq_pid : handle.request.pid = p := by rw [hreq]; exact hp
  have hreq_has : handle.request.has_pid = true := by rw [hreq]; exact hpid
  have hreq_len : handle.request.pid_length = 1 := by rw [hreq]; exact hres
  have hq1 : q % 256 = q := Nat.mod_eq_of_lt hq
  have hp256 : p % 256 = p := Nat.mod_eq_of_lt hp1
  have hstep1 := receive_pid_mismatch T handle id1 data1 size1 message1 1 q tail hre1
    hreq_has (Or.inl rfl) hreq_len (by simpa using hq) (by rw [hreq_pid]; exact hqp)
    (by rw [hm1, hreq_mode, be_bytes_one, hq1]; rfl) hs1 (by rw [hreq_mode]; decide)
  have hreq1 := receive_request T handle id1 data1 size1
  have hstep2 := receive_positive_match T
    (receive_outcome T handle id1 data1 size1).handle
    id2 data2 size2 message2 1 p d hre2
    (by rw [hreq1]; exact hreq_has) (Or.inl rfl) (by rw [hreq1]; exact hreq_len)
    (by rw [hreq1]; exact hreq_pid) (by simpa using hp1)
    (by rw [hm2, hreq1, hreq_mode, be_bytes_one, hp256]; rfl) hs2
    (by rw [hreq1, hreq_mode]; decide)
  rw [hreq1, hreq_mode] at hstep2
  refine ⟨hcount, by rw [hstep1.2.2.2.2, hcomp], hstep1.2.2.1, ?_, hstep2⟩
  have hdone : (receive_outcome T
      (receive_outcome T handle id1 data1 size1).handle
      id2 data2 size2).response.completed = true := by rw [hstep2]
  rcases receive_cases T (receive_outcome T handle id1 data1 size1).handle
    id2 data2 size2 message2 hre2 with h | h | h
  · exact h.2.2.2.1
  · exact h.2.2.2.2.1
  · rw [h.2.2.2.1] at hdone
    exact Bool.noConfusion hdone

/-- A handle the engine has produced that has `completed = true`, fed one more
frame in a run whose log calls return: both flags and the embedded request are
as they were, and the responses already returned are followed by the new
one. -/
theorem completed_handle_flags {S R : Type} (T : IsoTp S R) (request : DiagnosticRequest)
    (callback : Bool) (start : DiagnosticRequestHandle S R) (before : List CanFrame)
    (frame : CanFrame)
    (hstart : diagnostic_request T request callback = some start)
    (hc : (feed_outcome T start before).handle.completed = true) :
    (receive_outcome T (feed_outcome T start before).handle
        frame.arbitration_id frame.data frame.size).handle.success
      = (feed_outcome T start before).handle.success ∧
    (receive_outcome T (feed_outcome T start before).handle
        frame.arbitration_id frame.data frame.size).handle.completed
      = (feed_outcome T start before).handle.completed ∧
    (receive_outcome T (feed_outcome T start before).handle
        frame.arbitration_id frame.data frame.size).handle.request
      = (feed_outcome T start before).handle.request ∧
    (feed_outcome T start (before ++ [frame])).responses =
      (feed_outcome T start before).responses ++
        [(receive_outcome T (feed_outcome T start before).handle
          frame.arbitration_id frame.data frame.size).response] := by
  have hinv := engine_flags T request callback start before hstart
  rw [hc] at hinv
  refine ⟨?_, ?_, receive_request T _ _ _ _, (feed_outcome_append T start before frame).2.1⟩
  · rcases receive_flags T (feed_outcome T start before).handle frame.arbitration_id
      frame.data frame.size with hf | hf
    · exact hf.1
    · rw [hf.1, hinv]
  · rcases receive_flags T (feed_outcome T start before).handle frame.arbitration_id
      frame.data frame.size with hf | hf
    · exact hf.2
    · rw [hf.2, hc]

/-- The match without PID, of `handle_positive_response` and of the call that
reaches it when the log call returns: for a request with `has_pid = false` and
`pid_length = 0` and a message of size `n >= 1` whose first byte is
`request.mode + 0x40`, the response has mode `request.mode`, `has_pid = false`,
payload the message bytes 1..n-1, `success = true` and `completed = true`. -/
theorem receive_match_without_pid {S R : Type} (T : IsoTp S R)
    (handle : DiagnosticRequestHandle S R) (message : IsoTpMessage) (arbitration_id : Nat)
    (hpid : handle.request.has_pid = false) (hlen : handle.request.pid_length = 0)
    (hn : 1 ≤ message.size) (hsize : message.size = message.payload.length)
    (h0 : byte_at message.payload 0 = handle.request.mode + MODE_RESPONSE_OFFSET) :
    handle_positive_response handle message
        { fresh_response arbitration_id with mode := byte_at message.payload 0 } =
      (true,
        { fresh_response arbitration_id with
          mode := handle.request.mode, has_pid := false,
          payload := message.payload.drop 1, payload_length := message.size - 1,
          success := true, completed := true }) ∧
    (handle.request.mode ≠ 0x3f →
      ∀ (data : List Nat) (size : Nat),
        Reassembles T handle arbitration_id data size message →
        (receive_outcome T handle arbitration_id data size).response =
          { fresh_response arbitration_id with
            mode := handle.request.mode, has_pid := false,
            payload := message.payload.drop 1, payload_length := message.size - 1,
            success := true, completed := true }) := by
  have hfn := positive_response_without_pid handle message arbitration_id hpid hlen hn hsize h0
  refine ⟨hfn, ?_⟩
  intro hmode data size hre
  rw [receive_of_reassembles T handle arbitration_id data size message hre]
  have hpos : 0 < message.size := hn
  have hnn : ¬ handle.request.mode + 64 = 127 := by omega
  have hfn2 := positive_response_without_pid
    { handle with
      isotp_receive_handles :=
        (continue_receive_sessions T arbitration_id data size
          (handle.isotp_receive_handles.take handle.isotp_receive_handle_count)).1
        ++ handle.isotp_receive_handles.drop handle.isotp_receive_handle_count }
    message arbitration_id hpid hlen hn hsize h0
  simp only [fresh_response, h0, MODE_RESPONSE_OFFSET] at hfn2
  simp [completed_message_outcome, handle_negative_response, fresh_response, hpos, h0, hnn, hfn2]

/-- Two calls, on any two handles, that reassemble the same message starting
with 0x7F leave, when their log calls return, responses with the same mode and
negative response code, `success = false` and `completed = true`, and two
completed handles. -/
theorem receive_negative_independent {S1 R1 S2 R2 : Type}
    (T1 : IsoTp S1 R1) (handle1 : DiagnosticRequestHandle S1 R1)
    (T2 : IsoTp S2 R2) (handle2 : DiagnosticRequestHandle S2 R2)
    (id1 : Nat) (data1 : List Nat) (size1 : Nat)
    (id2 : Nat) (data2 : List Nat) (size2 : Nat) (message : IsoTpMessage)
    (hre1 : Reassembles T1 handle1 id1 data1 size1 message)
    (hre2 : Reassembles T2 handle2 id2 data2 size2 message)
    (hn : 1 ≤ message.size)
    (h0 : byte_at message.payload 0 = NEGATIVE_RESPONSE_MODE) :
    (receive_outcome T1 handle1 id1 data1 size1).response.mode
      = (receive_outcome T2 handle2 id2 data2 size2).response.mode ∧
    (receive_outcome T1 handle1 id1 data1 size1).response.negative_response_code
      = (receive_outcome T2 handle2 id2 data2 size2).response.negative_response_code ∧
    (receive_outcome T1 handle1 id1 data1 size1).response.success = false ∧
    (receive_outcome T2 handle2 id2 data2 size2).response.success = false ∧
    (receive_outcome T1 handle1 id1 data1 size1).response.completed = true ∧
    (receive_outcome T2 handle2 id2 data2 size2).response.completed = true ∧
    (receive_outcome T1 handle1 id1 data1 size1).handle.completed = true ∧
    (receive_outcome T2 handle2 id2 data2 size2).handle.completed = true ∧
    (receive_outcome T1 handle1 id1 data1 size1).response =
      { fresh_response id1 with
        mode := if message.size > 1 then byte_at message.payload 1 else NEGATIVE_RESPONSE_MODE
        negative_response_code := if message.size > 2 then byte_at message.payload 2 else 0
        success := false
        completed := true } := by
  obtain ⟨ha, -, hc1⟩ := receive_negative T1 handle1 id1 data1 size1 message hre1 hn h0
  obtain ⟨hb, -, hc2⟩ := receive_negative T2 handle2 id2 data2 size2 message hre2 hn h0
  refine ⟨by rw [ha, hb], by rw [ha, hb], by rw [ha], by rw [hb], by rw [ha], by rw [hb],
    hc1, hc2, ha⟩

/-- The one-byte positive response against a PID request, in
`handle_positive_response` and in the call that reaches it when the log call
returns: no PID and no payload in the response, a match exactly when
`request.pid = 0`, and on a mismatch a handle left as it was. -/
theorem receive_one_byte_response {S R : Type} (T : IsoTp S R)
    (handle : DiagnosticRequestHandle S R) (message : IsoTpMessage) (arbitration_id : Nat)
    (hpid : handle.request.has_pid = true) (hL : handle.request.pid_length < 255)
    (hsz : message.size = 1)
    (h0 : byte_at message.payload 0 = handle.request.mode + MODE_RESPONSE_OFFSET) :
    (handle_positive_response handle message
      { fresh_response arbitration_id with mode := byte_at message.payload 0 }).2.has_pid
      = false ∧
    (handle_positive_response handle message
      { fresh_response arbitration_id with mode := byte_at message.payload 0 }).2.pid = 0 ∧
    (handle_positive_response handle message
      { fresh_response arbitration_id with mode := byte_at message.payload 0 }).2.payload_length
      = 0 ∧
    (handle_positive_response handle message
      { fresh_response arbitration_id with mode := byte_at message.payload 0 }).2.payload
      = [] ∧
    ((handle_positive_response handle message
      { fresh_response arbitration_id with mode := byte_at message.payload 0 }).1 = true
      ↔ handle.request.pid = 0) ∧
    (handle.request.pid = 0 →
      (handle_positive_response handle message
        { fresh_response arbitration_id with mode := byte_at message.payload 0 }).2.success
        = true ∧
      (handle_positive_response handle message
        { fresh_response arbitration_id with mode := byte_at message.payload 0 }).2.completed
        = true) ∧
    (handle.request.pid ≠ 0 →
      (handle_positive_response handle message
        { fresh_response arbitration_id with mode := byte_at message.payload 0 }).1 = false ∧
      (handle_positive_response handle message
        { fresh_response arbitration_id with mode := byte_at message.payload 0 }).2.success
        = false ∧
      (handle_positive_response handle message
        { fresh_response arbitration_id with mode := byte_at message.payload 0 }).2.completed
        = false ∧
      (byte_at message.payload 0 ≠ NEGATIVE_RESPONSE_MODE →
        ∀ (data : List Nat) (size : Nat),
          Reassembles T handle arbitration_id data size message →
          (receive_outcome T handle arbitration_id data size).handle.success
            = handle.success ∧
          (receive_outcome T handle arbitration_id data size).handle.completed
            = handle.completed ∧
          (receive_outcome T handle arbitration_id data size).handle.request
            = handle.request ∧
          (receive_outcome T handle arbitration_id data size).response.completed
            = false)) := by
  have hfn := positive_response_one_byte handle message arbitration_id hpid hL hsz h0
  rw [hfn]
  refine ⟨rfl, rfl, rfl, rfl, by simp, ?_, ?_⟩
  · intro hp
    simp [hp]
  · intro hp
    refine ⟨by simp [hp], by simp [hp], by simp [hp], ?_⟩
    intro hneg data size hre
    have hverdict : positive_match handle message = false := by
      rw [← positive_verdict_eq handle handle message arbitration_id rfl, hfn]
      simp [hp]
    rcases receive_cases T handle arbitration_id data size message hre with h | h | h
    · exact absurd h.2.1 hneg
    · rw [hverdict] at h
      exact Bool.noConfusion h.2.2.1
    · obtain ⟨-, h3, h4, h5, -, -⟩ := h
      exact ⟨h3, h4, receive_request T handle arbitration_id data size, h5⟩

/-! ### The calls of the logging shim -/

/-- The completed-message body returns exactly when a logging shim is set, and
then leaves behind what `completed_message_outcome` describes. -/
theorem handle_completed_message_eq {S R : Type} (shims : DiagnosticShims)
    (handle : DiagnosticRequestHandle S R) (message : IsoTpMessage)
    (response : DiagnosticResponse) :
    handle_completed_message shims handle message response =
      if shims.log = true then some (completed_message_outcome handle message response)
      else none := by
  unfold handle_completed_message completed_message_outcome log_call
  cases shims.log
  · simp only [Bool.false_eq_true, if_false, Option.none_bind]
    split
    · split
      · rfl
      · split <;> rfl
    · rfl
  · simp only [if_true, Option.some_bind]
    split
    · split
      · rfl
      · split <;> rfl
    · rfl

/-- With a logging shim set, every call returns and leaves behind what
`receive_outcome` describes. -/
theorem receive_with_logger {S R : Type} (T : IsoTp S R) (shims : DiagnosticShims)
    (handle : DiagnosticRequestHandle S R) (arbitration_id : Nat) (data : List Nat)
    (size : Nat) (hlog : shims.log = true) :
    diagnostic_receive_can_frame T shims handle arbitration_id data size =
      some (receive_outcome T handle arbitration_id data size) := by
  unfold diagnostic_receive_can_frame receive_outcome
  split
  · rfl
  · dsimp only
    split
    · rfl
    · rw [handle_completed_message_eq, if_pos hlog]

/-- A call that returns leaves behind what `receive_outcome` describes, whatever
the shims are. -/
theorem receive_some {S R : Type} (T : IsoTp S R) (shims : DiagnosticShims)
    (handle : DiagnosticRequestHandle S R) (arbitration_id : Nat) (data : List Nat)
    (size : Nat) (r : ReceiveResult S R)
    (h : diagnostic_receive_can_frame T shims handle arbitration_id data size = some r) :
    r = receive_outcome T handle arbitration_id data size := by
  cases hlog : shims.log
  · unfold diagnostic_receive_can_frame at h
    unfold receive_outcome
    split at h
    · rename_i hs
      rw [if_pos hs]
      exact (Option.some.inj h).symm
    · rename_i hs
      rw [if_neg hs]
      dsimp only at h ⊢
      split at h
      · exact (Option.some.inj h).symm
      · rw [handle_completed_message_eq, hlog] at h
        simp at h
  · have h2 := receive_with_logger T shims handle arbitration_id data size hlog
    rw [h2] at h
    exact (Option.some.inj h).symm

/-- Without a logging shim, the call in which a session reports a completed
message does not return. -/
theorem receive_without_logger {S R : Type} (T : IsoTp S R) (shims : DiagnosticShims)
    (handle : DiagnosticRequestHandle S R) (arbitration_id : Nat) (data : List Nat)
    (size : Nat) (message : IsoTpMessage) (hlog : shims.log = false)
    (hs : T.send_completed handle.isotp_send_handle = true)
    (hm : (continue_receive_sessions T arbitration_id data size
      (handle.isotp_receive_handles.take handle.isotp_receive_handle_count)).2
        = some message) :
    diagnostic_receive_can_frame T shims handle arbitration_id data size = none := by
  unfold diagnostic_receive_can_frame
  rw [if_neg (by simp [hs])]
  dsimp only
  rw [hm]
  dsimp only
  rw [handle_completed_message_eq, hlog]
  rfl

/-- With a logging shim set, the loop over the frames returns and leaves behind
what `feed_outcome` describes. -/
theorem feed_frames_with_logger {S R : Type} (T : IsoTp S R) (shims : DiagnosticShims)
    (handle : DiagnosticRequestHandle S R) (frames : List CanFrame)
    (hlog : shims.log = true) :
    feed_frames T shims handle frames = some (feed_outcome T handle frames) := by
  induction frames generalizing handle with
  | nil => rfl
  | cons frame rest ih =>
    simp only [feed_frames, feed_outcome]
    rw [receive_with_logger T shims handle _ _ _ hlog]
    simp only [Option.some_bind]
    rw [ih]
    rfl

/-- A loop over the frames that returns leaves behind what `feed_outcome`
describes, whatever the shims are. -/
theorem feed_frames_some {S R : Type} (T : IsoTp S R) (shims : DiagnosticShims)
    (handle : DiagnosticRequestHandle S R) (frames : List CanFrame)
    (fed : FeedResult S R) (h : feed_frames T shims handle frames = some fed) :
    fed = feed_outcome T handle frames := by
  induction frames generalizing handle fed with
  | nil =>
    simp only [feed_frames] at h
    exact (Option.some.inj h).symm
  | cons frame rest ih =>
    simp only [feed_frames] at h
    cases hr : diagnostic_receive_can_frame T shims handle frame.arbitration_id frame.data
        frame.size with
    | none => rw [hr] at h; simp at h
    | some r =>
      rw [hr] at h
      simp only [Option.some_bind] at h
      have hr2 := receive_some T shims handle _ _ _ r hr
      cases hl : feed_frames T shims r.handle rest with
      | none => rw [hl] at h; simp at h
      | some later =>
        rw [hl] at h
        simp only [Option.some_bind] at h
        have hl2 := ih r.handle later hl
        simp only [feed_outcome]
        rw [← hr2, ← hl2]
        exact (Option.some.inj h).symm

/-- Without a logging shim, a call that returns has left both flags of the
handle as they were: the calls that set them do not return. -/
theorem receive_flags_without_logger {S R : Type} (T : IsoTp S R) (shims : DiagnosticShims)
    (handle : DiagnosticRequestHandle S R) (arbitration_id : Nat) (data : List Nat)
    (size : Nat) (r : ReceiveResult S R) (hlog : shims.log = false)
    (h : diagnostic_receive_can_frame T shims handle arbitration_id data size = some r) :
    r.handle.success = handle.success ∧ r.handle.completed = handle.completed := by
  unfold diagnostic_receive_can_frame at h
  split at h
  · rw [← Option.some.inj h]
    exact ⟨rfl, rfl⟩
  · dsimp only at h
    split at h
    · rw [← Option.some.inj h]
      exact ⟨rfl, rfl⟩
    · rw [handle_completed_message_eq, hlog] at h
      simp at h

/-- Without a logging shim, a loop over the frames that returns has left both
flags of the handle as they were. -/
theorem feed_frames_flags_without_logger {S R : Type} (T : IsoTp S R)
    (shims : DiagnosticShims) (handle : DiagnosticRequestHandle S R)
    (frames : List CanFrame) (fed : FeedResult S R) (hlog : shims.log = false)
    (h : feed_frames T shims handle frames = some fed) :
    fed.handle.success = handle.success ∧ fed.handle.completed = handle.completed := by
  induction frames generalizing handle fed with
  | nil =>
    simp only [feed_frames] at h
    rw [← Option.some.inj h]
    exact ⟨rfl, rfl⟩
  | cons frame rest ih =>
    simp only [feed_frames] at h
    cases hr : diagnostic_receive_can_frame T shims handle frame.arbitration_id frame.data
        frame.size with
    | none => rw [hr] at h; simp at h
    | some r =>
      rw [hr] at h
      simp only [Option.some_bind] at h
      have hr2 := receive_flags_without_logger T shims handle _ _ _ r hlog hr
      cases hl : feed_frames T shims r.handle rest with
      | none => rw [hl] at h; simp at h
      | some later =>
        rw [hl] at h
        simp only [Option.some_bind] at h
        have hl2 := ih r.handle later hl
        rw [← Option.some.inj h]
        exact ⟨by rw [← hr2.1]; exact hl2.1, by rw [← hr2.2]; exact hl2.2⟩

/-- Feeding one more frame: the loop over the longer sequence is the loop over
the shorter one followed by one more call, and returns when both do. -/
theorem feed_frames_append {S R : Type} (T : IsoTp S R) (shims : DiagnosticShims)
    (handle : DiagnosticRequestHandle S R) (before : List CanFrame) (frame : CanFrame) :
    feed_frames T shims handle (before ++ [frame]) =
      (feed_frames T shims handle before).bind fun fed =>
        (diagnostic_receive_can_frame T shims fed.handle frame.arbitration_id frame.data
            frame.size).bind fun r =>
          some
            { handle := r.handle
              responses := fed.responses ++ [r.response]
              callback_calls := fed.callback_calls ++ r.callback_calls } := by
  induction before generalizing handle with
  | nil =>
    simp only [List.nil_append, feed_frames, Option.some_bind]
    cases diagnostic_receive_can_frame T shims handle frame.arbitration_id frame.data
      frame.size <;> simp
  | cons first rest ih =>
    have e : first :: rest ++ [frame] = first :: (rest ++ [frame]) := rfl
    rw [e]
    simp only [feed_frames]
    cases diagnostic_receive_can_frame T shims handle first.arbitration_id first.data
        first.size with
    | none => simp
    | some r1 =>
      simp only [Option.some_bind]
      rw [ih r1.handle]
      cases feed_frames T shims r1.handle rest with
      | none => simp
      | some fed =>
        simp only [Option.some_bind]
        cases diagnostic_receive_can_frame T shims fed.handle frame.arbitration_id
            frame.data frame.size <;> simp

/-! ## Theorems -/

/-- C1 (amended). Positive match with PID: in the receiving state, with a
logging shim set, for a request whose mode is not 0x3F, a reassembled message
made of the byte `request.mode + 0x40`, the request's PID `p` in `L` big-endian
bytes (`L` the resolved `pid_length`, 1 or 2, `p` fitting `L` bytes) and data
bytes `d` makes `diagnostic_receive_can_frame` return a response with the
request's mode, `has_pid = true`, `pid = p`, `payload = d`,
`payload_length = length d`, `success = true` and `completed = true`. -/
theorem positive_match_with_pid {S R : Type} (T : IsoTp S R) (shims : DiagnosticShims)
    (handle : DiagnosticRequestHandle S R) (arbitration_id : Nat) (data : List Nat)
    (size : Nat) (message : IsoTpMessage) (L p : Nat) (d : List Nat)
    (hlog : shims.log = true)
    (hre : Reassembles T handle arbitration_id data size message)
    (hpid : handle.request.has_pid = true)
    (hL : L = 1 ∨ L = 2) (hlen : handle.request.pid_length = L)
    (hp : handle.request.pid = p) (hfit : p < 256 ^ L)
    (hbytes : message.payload =
      (handle.request.mode + MODE_RESPONSE_OFFSET) :: (be_bytes L p ++ d))
    (hsize : message.size = message.payload.length)
    (hmode : handle.request.mode ≠ 0x3f) :
    (diagnostic_receive_can_frame T shims handle arbitration_id data size).map
        (fun r => r.response) =
      some { fresh_response arbitration_id with
        mode := handle.request.mode, has_pid := true, pid := p, payload := d,
        payload_length := d.length, success := true, completed := true } := by
  rw [receive_with_logger T shims handle arbitration_id data size hlog, Option.map_some']
  exact congrArg some
    (receive_positive_match T handle arbitration_id data size message L p d hre hpid hL hlen
      hp hfit hbytes hsize hmode)

/-- Witness of C1 (amended): mode 0x01, pid 0x0C in one byte, message
`[0x41, 0x0C, 0x1A, 0xF8]` gives payload `[0x1A, 0xF8]`. -/
theorem positive_match_with_pid_witness :
    (diagnostic_receive_can_frame frame_transport (diagnostic_init_shims true true true)
        (receiving_handle (pid_request 0x7e0 0x01 0x0c 1) [0x7e8])
        0x7e8 [0x41, 0x0c, 0x1a, 0xf8] 4).map (fun r => r.response) =
      some
        { completed := true, success := true, arbitration_id := 0x7e8, mode := 0x01,
          has_pid := true, pid := 0x0c, negative_response_code := 0,
          payload := [0x1a, 0xf8], payload_length := 2 } :=
  positive_match_with_pid frame_transport (diagnostic_init_shims true true true)
    (receiving_handle (pid_request 0x7e0 0x01 0x0c 1) [0x7e8])
    0x7e8 [0x41, 0x0c, 0x1a, 0xf8] 4 (frame_message 0x7e8 [0x41, 0x0c, 0x1a, 0xf8])
    1 0x0c [0x1a, 0xf8] rfl ⟨rfl, rfl⟩ rfl (Or.inl rfl) rfl rfl (by decide) rfl rfl (by decide)

/-- Counterexample to C1 as stated, in two runs. With a logging shim set, for a
request of mode 0x3F with one-byte pid 0x0C, the message
`[0x3F + 0x40, 0x0C, 0x1A, 0xF8]` starts with 0x7F, is taken as a negative
response, and the response has `success = false`, mode 0x0C and negative
response code 0x1A instead of the positive match. With no logging shim
(`log = NULL`), for the request of mode 0x01 and pid 0x0C, the call that
reassembles `[0x41, 0x0C, 0x1A, 0xF8]` reaches the log call of line 234 and
returns no response. -/
theorem positive_match_with_pid_fails_at_mode_3f :
    (Reassembles frame_transport (receiving_handle (pid_request 0x7e0 0x3f 0x0c 1) [0x7e8])
        0x7e8 [0x7f, 0x0c, 0x1a, 0xf8] 4 (frame_message 0x7e8 [0x7f, 0x0c, 0x1a, 0xf8]) ∧
      (frame_message 0x7e8 [0x7f, 0x0c, 0x1a, 0xf8]).payload =
        ((pid_request 0x7e0 0x3f 0x0c 1).mode + MODE_RESPONSE_OFFSET)
          :: (be_bytes 1 0x0c ++ [0x1a, 0xf8]) ∧
      (diagnostic_receive_can_frame frame_transport (diagnostic_init_shims true true true)
          (receiving_handle (pid_request 0x7e0 0x3f 0x0c 1) [0x7e8])
          0x7e8 [0x7f, 0x0c, 0x1a, 0xf8] 4).map (fun r => r.response) =
        some
          { completed := true, success := false, arbitration_id := 0x7e8, mode := 0x0c,
            has_pid := false, pid := 0, negative_response_code := 0x1a,
            payload := [], payload_length := 0 }) ∧
    (Reassembles frame_transport (receiving_handle (pid_request 0x7e0 0x01 0x0c 1) [0x7e8])
        0x7e8 [0x41, 0x0c, 0x1a, 0xf8] 4 (frame_message 0x7e8 [0x41, 0x0c, 0x1a, 0xf8]) ∧
      (diagnostic_receive_can_frame frame_transport (diagnostic_init_shims false true true)
          (receiving_handle (pid_request 0x7e0 0x01 0x0c 1) [0x7e8])
          0x7e8 [0x41, 0x0c, 0x1a, 0xf8] 4).map (fun r => r.response) = none) :=
  ⟨⟨⟨rfl, rfl⟩, rfl, rfl⟩, ⟨rfl, rfl⟩, rfl⟩

/-- C2. Negative response classification with short-message guard, and the run
in which it fails. In the receiving state, take a reassembled message of size
`n >= 1` whose first byte is 0x7F. With a logging shim set,
`diagnostic_receive_can_frame` returns a response with `success = false` and
`completed = true`, whose mode is message byte 1 when `n > 1` and 0x7F
otherwise, and whose negative response code is message byte 2 when `n > 2` and
0 otherwise; no byte at an index `>= n` is read and the request plays no part:
any handle, over any transport, fed a frame with the same arbitration id that
reassembles a message of the same size with the same first `n` bytes returns
the same response. With no logging shim (`log = NULL`, which `uds.h` allows)
the call reaches the log call of line 228, made with no test of the pointer,
and returns no response. -/
theorem negative_response_classification {S R : Type} (T : IsoTp S R)
    (shims : DiagnosticShims)
    (handle : DiagnosticRequestHandle S R) (arbitration_id : Nat) (data : List Nat)
    (size : Nat) (message : IsoTpMessage)
    (hre : Reassembles T handle arbitration_id data size message)
    (hn : 1 ≤ message.size)
    (h0 : byte_at message.payload 0 = NEGATIVE_RESPONSE_MODE) :
    (shims.log = true →
      ∃ r, diagnostic_receive_can_frame T shims handle arbitration_id data size = some r ∧
        r.response.success = false ∧
        r.response.completed = true ∧
        r.response.mode =
          (if message.size > 1 then byte_at message.payload 1 else NEGATIVE_RESPONSE_MODE) ∧
        r.response.negative_response_code =
          (if message.size > 2 then byte_at message.payload 2 else 0) ∧
        (∀ {S2 R2 : Type} (T2 : IsoTp S2 R2) (handle2 : DiagnosticRequestHandle S2 R2)
            (data2 : List Nat) (size2 : Nat) (message2 : IsoTpMessage),
          Reassembles T2 handle2 arbitration_id data2 size2 message2 →
          message2.size = message.size →
          (∀ i, i < message.size → byte_at message2.payload i = byte_at message.payload i) →
          (diagnostic_receive_can_frame T2 shims handle2 arbitration_id data2 size2).map
              (fun r2 => r2.response) = some r.response)) ∧
    (shims.log = false →
      diagnostic_receive_can_frame T shims handle arbitration_id data size = none) := by
  constructor
  · intro hlog
    obtain ⟨h1, h2, h3, h4, h5⟩ :=
      receive_negative_classified T handle arbitration_id data size message hre hn h0
    refine ⟨_, receive_with_logger T shims handle arbitration_id data size hlog,
      h1, h2, h3, h4, ?_⟩
    intro S2 R2 T2 handle2 data2 size2 message2 hre2 hsz hagree
    rw [receive_with_logger T2 shims handle2 arbitration_id data2 size2 hlog,
      Option.map_some']
    exact congrArg some (h5 T2 handle2 data2 size2 message2 hre2 hsz hagree)
  · intro hlog
    exact receive_without_logger T shims handle arbitration_id data size message hlog
      hre.1 hre.2

/-- Witness of C2: with a logging shim, `[0x7F, 0x01, 0x11]` for a mode 0x01
request gives mode 0x01 and negative response code 0x11; with `log = NULL` the
same call returns nothing. -/
theorem negative_response_classification_witness :
    (diagnostic_receive_can_frame frame_transport (diagnostic_init_shims true true true)
        (receiving_handle (pid_request 0x7e0 0x01 0x0c 1) [0x7e8])
        0x7e8 [0x7f, 0x01, 0x11] 3).map (fun r => r.response) =
      some
        { completed := true, success := false, arbitration_id := 0x7e8, mode := 0x01,
          has_pid := false, pid := 0, negative_response_code := 0x11,
          payload := [], payload_length := 0 } ∧
    diagnostic_receive_can_frame frame_transport (diagnostic_init_shims false true true)
        (receiving_handle (pid_request 0x7e0 0x01 0x0c 1) [0x7e8])
        0x7e8 [0x7f, 0x01, 0x11] 3 = none :=
  ⟨rfl,
    (negative_response_classification frame_transport (diagnostic_init_shims false true true)
      (receiving_handle (pid_request 0x7e0 0x01 0x0c 1) [0x7e8])
      0x7e8 [0x7f, 0x01, 0x11] 3 (frame_message 0x7e8 [0x7f, 0x01, 0x11])
      ⟨rfl, rfl⟩ (by decide) rfl).2 rfl⟩

/-- C3. Request encoding layout: when `1 + pid_length + payload_length <= 6`
(with `pid_length` as resolved by the auto-selection, the PID fitting that many
bytes when the request has one, and the request's payload array holding
`payload_length` bytes), `diagnostic_request` builds its 6-byte buffer without a
write leaving it and hands it to `isotp_send` with size
`1 + pid_length + payload_length`; byte 0 is the mode, the next `pid_length`
bytes are the PID in big-endian order when the request has a PID, and the
following `payload_length` bytes are the request payload. -/
theorem request_encoding_layout {S R : Type} (T : IsoTp S R) (request : DiagnosticRequest)
    (callback : Bool)
    (hbudget : 1 + resolved_pid_length request + request.payload_length
      ≤ MAX_DIAGNOSTIC_PAYLOAD_SIZE)
    (hfit : request.has_pid = true → request.pid < 256 ^ resolved_pid_length request)
    (hpayload : request.payload_length ≤ request.payload.length) :
    ∃ buffer : List Nat,
      request_buffer request = some buffer ∧
      buffer.length = MAX_DIAGNOSTIC_PAYLOAD_SIZE ∧
      (diagnostic_request T request callback).map (fun handle => handle.isotp_send_handle) =
        some (T.isotp_send request.arbitration_id buffer
          (1 + resolved_pid_length request + request.payload_length)) ∧
      byte_at buffer 0 = request.mode ∧
      (request.has_pid = true →
        (buffer.drop 1).take (resolved_pid_length request) =
          be_bytes (resolved_pid_length request) request.pid) ∧
      (request.has_pid = false →
        (buffer.drop 1).take (resolved_pid_length request) =
          List.replicate (resolved_pid_length request) 0) ∧
      (buffer.drop (1 + resolved_pid_length request)).take request.payload_length =
        request.payload.take request.payload_length :=
  request_layout T request callback hbudget hfit hpayload

/-- Witness of C3: a mode 0x22 request for pid 0x1234 with automatic
`pid_length` and two payload bytes is encoded as `22 12 34 AA BB`. -/
theorem request_encoding_layout_witness :
    request_buffer
        { arbitration_id := 0x7e0, mode := 0x22, has_pid := true, pid := 0x1234,
          pid_length := 0, payload := [0xaa, 0xbb], payload_length := 2 } =
      some [0x22, 0x12, 0x34, 0xaa, 0xbb, 0] ∧
    ∃ buffer : List Nat,
      request_buffer
          { arbitration_id := 0x7e0, mode := 0x22, has_pid := true, pid := 0x1234,
            pid_length := 0, payload := [0xaa, 0xbb], payload_length := 2 } = some buffer ∧
      buffer.length = MAX_DIAGNOSTIC_PAYLOAD_SIZE ∧
      (diagnostic_request frame_transport
          { arbitration_id := 0x7e0, mode := 0x22, has_pid := true, pid := 0x1234,
            pid_length := 0, payload := [0xaa, 0xbb], payload_length := 2 } true).map
          (fun handle => handle.isotp_send_handle) =
        some (frame_transport.isotp_send 0x7e0 buffer (1 + 2 + 2)) ∧
      byte_at buffer 0 = 0x22 ∧
      (true = true → (buffer.drop 1).take 2 = be_bytes 2 0x1234) ∧
      (true = false → (buffer.drop 1).take 2 = List.replicate 2 0) ∧
      (buffer.drop (1 + 2)).take 2 = [0xaa, 0xbb] :=
  ⟨rfl,
    request_encoding_layout frame_transport
      { arbitration_id := 0x7e0, mode := 0x22, has_pid := true, pid := 0x1234,
        pid_length := 0, payload := [0xaa, 0xbb], payload_length := 2 } true
      (by decide) (fun _ => by decide) (by decide)⟩

/-- C4 (amended). Encoding round-trip: when the resolved `pid_length` `L` and
the payload satisfy `1 + L + payload_length <= 6`, the PID fits `L` bytes when
the request has one, and the payload array holds `payload_length` bytes, the
request is encoded without leaving the buffer, and reading the buffer back (mode
at byte 0, `L` big-endian PID bytes at index 1, payload after them up to the
size handed to the transport) gives the request's mode, its pid (0 when the
request has no PID, whose `pid` field is not encoded) and its payload. -/
theorem encoding_round_trip (request : DiagnosticRequest)
    (hbudget : 1 + resolved_pid_length request + request.payload_length
      ≤ MAX_DIAGNOSTIC_PAYLOAD_SIZE)
    (hfit : request.has_pid = true → request.pid < 256 ^ resolved_pid_length request)
    (hpayload : request.payload_length ≤ request.payload.length) :
    ∃ buffer : List Nat,
      request_buffer request = some buffer ∧
      reparse_request buffer (request_size request) (resolved_pid_length request) =
        (request.mode, (if request.has_pid = true then request.pid else 0),
          request.payload.take request.payload_length) := by
  obtain ⟨buffer, hbuf, -, -, hmode, hpidb, hnopid, hdata⟩ :=
    request_layout frame_transport request true hbudget hfit hpayload
  refine ⟨buffer, hbuf, ?_⟩
  have hsize : request_size request - (1 + resolved_pid_length request)
      = request.payload_length := by
    unfold request_size; omega
  by_cases hpid : request.has_pid = true
  · simp only [reparse_request, hmode, hpidb hpid, be_value_be_bytes _ _ (hfit hpid), hsize,
      hdata, hpid, if_true]
  · have hfalse : request.has_pid = false := by simpa using hpid
    simp only [reparse_request, hmode, hnopid hfalse, be_value_replicate_zero, hsize, hdata,
      hfalse, Bool.false_eq_true, if_false]

/-- Witness of C4 (amended): the mode 0x22 request for pid 0x1234 with two
payload bytes is encoded as `22 12 34 AA BB` and reads back as itself. -/
theorem encoding_round_trip_witness :
    ∃ buffer : List Nat,
      request_buffer
          { arbitration_id := 0x7e0, mode := 0x22, has_pid := true, pid := 0x1234,
            pid_length := 0, payload := [0xaa, 0xbb], payload_length := 2 } = some buffer ∧
      reparse_request buffer 5 2 = (0x22, 0x1234, [0xaa, 0xbb]) :=
  encoding_round_trip
    { arbitration_id := 0x7e0, mode := 0x22, has_pid := true, pid := 0x1234,
      pid_length := 0, payload := [0xaa, 0xbb], payload_length := 2 }
    (by decide) (fun _ => by decide) (by decide)

/-- Counterexample to C4 as stated. Each request has `pid_length` in {0,1,2} and
`payload_length <= 6 - pid_length`, and none round-trips: with `pid_length = 2`
and four payload bytes the request needs 7 bytes and the copy of the payload
leaves the 6-byte buffer, so no buffer is produced; pid 0x1234 with
`pid_length = 1` does not fit its field and is not read back; a request without
a PID does not encode its `pid` field, which reads back as 0. -/
theorem encoding_round_trip_fails :
    round_trips
        { arbitration_id := 0x7e0, mode := 0x22, has_pid := true, pid := 0x1234,
          pid_length := 2, payload := [1, 2, 3, 4], payload_length := 4 } = false ∧
    request_buffer
        { arbitration_id := 0x7e0, mode := 0x22, has_pid := true, pid := 0x1234,
          pid_length := 2, payload := [1, 2, 3, 4], payload_length := 4 } = none ∧
    round_trips
        { arbitration_id := 0x7e0, mode := 0x22, has_pid := true, pid := 0x1234,
          pid_length := 1, payload := [], payload_length := 0 } = false ∧
    round_trips
        { arbitration_id := 0x7e0, mode := 0x3e, has_pid := false, pid := 5,
          pid_length := 0, payload := [], payload_length := 0 } = false := by
  decide

/-- C5. The code at the failing input: for mode 1 and pid 0x100 (a pid that
needs two bytes) with `pid_length` supplied as 0, `autoset_pid_length` returns 1,
not 2; the comparison `pid > 0xffff` of line 55 is never true of a 16-bit pid, so
the claimed equivalence with "mode > 10 or pid > 0xFF" fails there. -/
theorem autoset_pid_length_wide_pid :
    autoset_pid_length 1 0x100 0 = 1 ∧
    ¬ (autoset_pid_length 1 0x100 0 = 2 ↔ (1 > 10 ∨ 0x100 > 0xff)) := by
  decide

/-- C6. Completion postcondition, and the run in which it fails. Take a handle
with `completed = false` whose send session is complete. With a logging shim
set, `diagnostic_receive_can_frame` returns, and its response has
`completed = true` exactly when a receive session reports, on this call, a
completed non-empty message whose first byte is 0x7F (negative) or that
`handle_positive_response` accepts as a match. In that case the handle's
`success` and `completed` are both true afterwards, the returned response of a
negative message has `success = false`, and the callback, if present, is
invoked exactly once, with the returned response. In every other case the
callback is not invoked and the handle's flags are as before. With no logging
shim (`log = NULL`, which `uds.h` allows) the call in which a session reports a
completed message reaches one of the log calls of lines 228, 234, 239 and 245,
made with no test of the pointer, and returns no response: a negative or
matching message then gives no response with `completed = true`. -/
theorem completion_postcondition {S R : Type} (T : IsoTp S R) (shims : DiagnosticShims)
    (handle : DiagnosticRequestHandle S R) (arbitration_id : Nat) (data : List Nat)
    (size : Nat)
    (hc : handle.completed = false)
    (hs : T.send_completed handle.isotp_send_handle = true) :
    (shims.log = true →
      ∃ r, diagnostic_receive_can_frame T shims handle arbitration_id data size = some r ∧
        (r.response.completed = true ↔
          ∃ message, Reassembles T handle arbitration_id data size message ∧
            message.size > 0 ∧
            (byte_at message.payload 0 = NEGATIVE_RESPONSE_MODE ∨
              positive_match handle message = true)) ∧
        (r.response.completed = true →
          r.handle.success = true ∧
          r.handle.completed = true ∧
          r.callback_calls = (if handle.callback = true then [r.response] else []) ∧
          (∀ message, Reassembles T handle arbitration_id data size message →
            byte_at message.payload 0 = NEGATIVE_RESPONSE_MODE →
            r.response.success = false)) ∧
        (r.response.completed = false →
          r.callback_calls = [] ∧
          r.handle.success = handle.success ∧
          r.handle.completed = false)) ∧
    (shims.log = false →
      ∀ message, Reassembles T handle arbitration_id data size message →
        diagnostic_receive_can_frame T shims handle arbitration_id data size = none) :=
  ⟨fun hlog => ⟨_, receive_with_logger T shims handle arbitration_id data size hlog,
      receive_completion T handle arbitration_id data size hc hs⟩,
    fun hlog message hre =>
      receive_without_logger T shims handle arbitration_id data size message hlog
        hre.1 hre.2⟩

/-- Witness of C6: with a logging shim, a handle waiting for mode 0x01, pid
0x0C, fed the frame `41 0C 1A F8`, completes and has its callback invoked once
with the response; with `log = NULL` the same call returns nothing. -/
theorem completion_postcondition_witness :
    (diagnostic_receive_can_frame frame_transport (diagnostic_init_shims true true true)
        (receiving_handle (pid_request 0x7e0 0x01 0x0c 1) [0x7e8])
        0x7e8 [0x41, 0x0c, 0x1a, 0xf8] 4).map
          (fun r => (r.response.completed, r.handle.completed, r.callback_calls)) =
      some (true, true,
        [{ completed := true, success := true, arbitration_id := 0x7e8, mode := 0x01,
            has_pid := true, pid := 0x0c, negative_response_code := 0,
            payload := [0x1a, 0xf8], payload_length := 2 }]) ∧
    diagnostic_receive_can_frame frame_transport (diagnostic_init_shims false true true)
        (receiving_handle (pid_request 0x7e0 0x01 0x0c 1) [0x7e8])
        0x7e8 [0x41, 0x0c, 0x1a, 0xf8] 4 = none :=
  ⟨rfl,
    (completion_postcondition frame_transport (diagnostic_init_shims false true true)
      (receiving_handle (pid_request 0x7e0 0x01 0x0c 1) [0x7e8])
      0x7e8 [0x41, 0x0c, 0x1a, 0xf8] 4 rfl rfl).2 rfl
      (frame_message 0x7e8 [0x41, 0x0c, 0x1a, 0xf8]) ⟨rfl, rfl⟩⟩

/-- C7. Irrelevant messages change nothing, and the run in which the call does
not return. In the receiving state, take a completed reassembled message that
is empty, or whose first byte is neither 0x7F nor `request.mode + 0x40`. With a
logging shim set, `diagnostic_receive_can_frame` leaves the handle's `success`
and `completed` as they were and returns a response with `success = false` and
`completed = false`. With no logging shim (`log = NULL`, which `uds.h` allows)
the call reaches the log call of line 239 or 245, made with no test of the
pointer, and returns no response. -/
theorem irrelevant_message_changes_nothing {S R : Type} (T : IsoTp S R)
    (shims : DiagnosticShims)
    (handle : DiagnosticRequestHandle S R) (arbitration_id : Nat) (data : List Nat)
    (size : Nat) (message : IsoTpMessage)
    (hre : Reassembles T handle arbitration_id data size message)
    (hirr : message.size = 0 ∨
      (byte_at message.payload 0 ≠ NEGATIVE_RESPONSE_MODE ∧
        byte_at message.payload 0 ≠ handle.request.mode + MODE_RESPONSE_OFFSET)) :
    (shims.log = true →
      ∃ r, diagnostic_receive_can_frame T shims handle arbitration_id data size = some r ∧
        r.handle.success = handle.success ∧
        r.handle.completed = handle.completed ∧
        r.response.success = false ∧
        r.response.completed = false) ∧
    (shims.log = false →
      diagnostic_receive_can_frame T shims handle arbitration_id data size = none) :=
  ⟨fun hlog => ⟨_, receive_with_logger T shims handle arbitration_id data size hlog,
      receive_irrelevant T handle arbitration_id data size message hre hirr⟩,
    fun hlog =>
      receive_without_logger T shims handle arbitration_id data size message hlog
        hre.1 hre.2⟩

/-- Witness of C7: with a logging shim, a handle waiting for mode 0x01 is fed a
mode 0x09 response (first byte 0x49) and stays as it was; with `log = NULL`
the same call returns nothing. -/
theorem irrelevant_message_changes_nothing_witness :
    (diagnostic_receive_can_frame frame_transport (diagnostic_init_shims true true true)
        (receiving_handle (pid_request 0x7e0 0x01 0x0c 1) [0x7e8])
        0x7e8 [0x49, 0x02, 0x01] 3).map
          (fun r => (r.handle.success, r.handle.completed, r.response.success,
            r.response.completed)) = some (false, false, false, false) ∧
    diagnostic_receive_can_frame frame_transport (diagnostic_init_shims false true true)
        (receiving_handle (pid_request 0x7e0 0x01 0x0c 1) [0x7e8])
        0x7e8 [0x49, 0x02, 0x01] 3 = none :=
  ⟨rfl,
    (irrelevant_message_changes_nothing frame_transport
      (diagnostic_init_shims false true true)
      (receiving_handle (pid_request 0x7e0 0x01 0x0c 1) [0x7e8])
      0x7e8 [0x49, 0x02, 0x01] 3 (frame_message 0x7e8 [0x49, 0x02, 0x01])
      ⟨rfl, rfl⟩ (Or.inr ⟨by decide, by decide⟩)).2 rfl⟩

/-- C8 (amended). PID mismatch keeps waiting: in the receiving state, with a
logging shim set, for a request with a PID whose mode is not 0x3F, a
reassembled message whose first byte is `request.mode + 0x40` and whose PID
bytes (`L` big-endian bytes at index 1, `L` the resolved `pid_length`, 1 or 2)
decode to a value `q` different from `request.pid` is not a match for
`handle_positive_response`; `diagnostic_receive_can_frame` returns a response
with `success = false` and `completed = false`, and the handle's `success` and
`completed` are unchanged. -/
theorem pid_mismatch_keeps_waiting {S R : Type} (T : IsoTp S R) (shims : DiagnosticShims)
    (handle : DiagnosticRequestHandle S R) (arbitration_id : Nat) (data : List Nat)
    (size : Nat) (message : IsoTpMessage) (L q : Nat) (d : List Nat)
    (hlog : shims.log = true)
    (hre : Reassembles T handle arbitration_id data size message)
    (hpid : handle.request.has_pid = true)
    (hL : L = 1 ∨ L = 2) (hlen : handle.request.pid_length = L)
    (hq : q < 256 ^ L) (hne : q ≠ handle.request.pid)
    (hbytes : message.payload =
      (handle.request.mode + MODE_RESPONSE_OFFSET) :: (be_bytes L q ++ d))
    (hsize : message.size = message.payload.length)
    (hmode : handle.request.mode ≠ 0x3f) :
    positive_match handle message = false ∧
    ∃ r, diagnostic_receive_can_frame T shims handle arbitration_id data size = some r ∧
      r.response.success = false ∧
      r.response.completed = false ∧
      r.handle.success = handle.success ∧
      r.handle.completed = handle.completed :=
  have h := receive_pid_mismatch T handle arbitration_id data size message L q d hre hpid hL
    hlen hq hne hbytes hsize hmode
  ⟨h.1, _, receive_with_logger T shims handle arbitration_id data size hlog, h.2⟩

/-- Witness of C8 (amended): with a logging shim, a handle waiting for mode
0x01, pid 0x0D is fed `41 0C 10` (pid 0x0C) and keeps waiting. -/
theorem pid_mismatch_keeps_waiting_witness :
    positive_match (receiving_handle (pid_request 0x7e0 0x01 0x0d 1) [0x7e8])
        (frame_message 0x7e8 [0x41, 0x0c, 0x10]) = false ∧
    ∃ r, diagnostic_receive_can_frame frame_transport (diagnostic_init_shims true true true)
          (receiving_handle (pid_request 0x7e0 0x01 0x0d 1) [0x7e8])
          0x7e8 [0x41, 0x0c, 0x10] 3 = some r ∧
      r.response.success = false ∧
      r.response.completed = false ∧
      r.handle.success = false ∧
      r.handle.completed = false :=
  pid_mismatch_keeps_waiting frame_transport (diagnostic_init_shims true true true)
    (receiving_handle (pid_request 0x7e0 0x01 0x0d 1) [0x7e8])
    0x7e8 [0x41, 0x0c, 0x10] 3 (frame_message 0x7e8 [0x41, 0x0c, 0x10]) 1 0x0c [0x10]
    rfl ⟨rfl, rfl⟩ rfl (Or.inl rfl) rfl (by decide) (by decide) rfl rfl (by decide)

/-- Counterexample to C8 as stated, in two runs. With a logging shim set, a
handle waiting for mode 0x3F, pid 0x0D is fed `7F 0C 10`, whose first byte is
`0x3F + 0x40` and whose PID byte 0x0C differs from 0x0D. The message is taken
as a negative response: the returned response has `completed = true` and the
handle's `success` and `completed` change to true. With no logging shim
(`log = NULL`), a handle waiting for mode 0x01, pid 0x0D is fed `41 0C 10`: the
call reaches the log call of line 239 and returns no response. -/
theorem pid_mismatch_completes_at_mode_3f :
    (Reassembles frame_transport (receiving_handle (pid_request 0x7e0 0x3f 0x0d 1) [0x7e8])
        0x7e8 [0x7f, 0x0c, 0x10] 3 (frame_message 0x7e8 [0x7f, 0x0c, 0x10]) ∧
      (frame_message 0x7e8 [0x7f, 0x0c, 0x10]).payload =
        ((pid_request 0x7e0 0x3f 0x0d 1).mode + MODE_RESPONSE_OFFSET)
          :: (be_bytes 1 0x0c ++ [0x10]) ∧
      (0x0c : Nat) ≠ (pid_request 0x7e0 0x3f 0x0d 1).pid ∧
      (receiving_handle (pid_request 0x7e0 0x3f 0x0d 1) [0x7e8]).completed = false ∧
      (diagnostic_receive_can_frame frame_transport (diagnostic_init_shims true true true)
          (receiving_handle (pid_request 0x7e0 0x3f 0x0d 1) [0x7e8])
          0x7e8 [0x7f, 0x0c, 0x10] 3).map
            (fun r => (r.response.completed, r.handle.completed, r.handle.success)) =
        some (true, true, true)) ∧
    (Reassembles frame_transport (receiving_handle (pid_request 0x7e0 0x01 0x0d 1) [0x7e8])
        0x7e8 [0x41, 0x0c, 0x10] 3 (frame_message 0x7e8 [0x41, 0x0c, 0x10]) ∧
      (frame_message 0x7e8 [0x41, 0x0c, 0x10]).payload =
        ((pid_request 0x7e0 0x01 0x0d 1).mode + MODE_RESPONSE_OFFSET)
          :: (be_bytes 1 0x0c ++ [0x10]) ∧
      (diagnostic_receive_can_frame frame_transport (diagnostic_init_shims false true true)
          (receiving_handle (pid_request 0x7e0 0x01 0x0d 1) [0x7e8])
          0x7e8 [0x41, 0x0c, 0x10] 3).map (fun r => r.response) = none) :=
  ⟨⟨⟨rfl, rfl⟩, rfl, by decide, rfl, rfl⟩, ⟨rfl, rfl⟩, rfl, rfl⟩

/-- C9. Broadcast mismatch-then-match trace, and the run in which it fails.
Take the handle `diagnostic_request` returns for a functional-broadcast request
(arbitration id 0x7DF) of mode 0x01 with a one-byte pid `p` and no payload; it
has eight receive sessions. Let a frame make one of them reassemble
`[0x41, q, ...]` with `q != p`, and let a later frame, fed to the handle the
first call leaves, make a session reassemble `[0x41, p] ++ d`. With a logging
shim set, the first call returns and the handle still has `completed = false`;
the second call returns, completes the handle and its response is completed and
successful with `pid = p` and `payload = d`. With no logging shim (`log = NULL`,
which `uds.h` allows) the first call reaches the log call of line 239, made
with no test of the pointer, and does not return: the trace ends there. -/
theorem broadcast_mismatch_then_match {S R : Type} (T : IsoTp S R)
    (shims : DiagnosticShims)
    (request : DiagnosticRequest) (callback : Bool) (handle : DiagnosticRequestHandle S R)
    (p q : Nat) (tail d : List Nat)
    (id1 : Nat) (data1 : List Nat) (size1 : Nat) (message1 : IsoTpMessage)
    (id2 : Nat) (data2 : List Nat) (size2 : Nat) (message2 : IsoTpMessage)
    (harb : request.arbitration_id = OBD2_FUNCTIONAL_BROADCAST_ID)
    (hmode : request.mode = 0x01) (hpid : request.has_pid = true)
    (hp : request.pid = p) (hp1 : p < 256) (hL : request.pid_length ≤ 1)
    (hhandle : diagnostic_request T request callback = some handle)
    (hre1 : Reassembles T handle id1 data1 size1 message1)
    (hm1 : message1.payload = 0x41 :: q :: tail)
    (hs1 : message1.size = message1.payload.length)
    (hq : q < 256) (hqp : q ≠ p)
    (hre2 : ∀ r1, diagnostic_receive_can_frame T shims handle id1 data1 size1 = some r1 →
      Reassembles T r1.handle id2 data2 size2 message2)
    (hm2 : message2.payload = 0x41 :: p :: d)
    (hs2 : message2.size = message2.payload.length) :
    handle.isotp_receive_handle_count = OBD2_FUNCTIONAL_RESPONSE_COUNT ∧
    (shims.log = true →
      ∃ r1 r2, diagnostic_receive_can_frame T shims handle id1 data1 size1 = some r1 ∧
        r1.handle.completed = false ∧
        r1.response.completed = false ∧
        diagnostic_receive_can_frame T shims r1.handle id2 data2 size2 = some r2 ∧
        r2.handle.completed = true ∧
        r2.response =
          { fresh_response id2 with
            mode := 0x01, has_pid := true, pid := p, payload := d,
            payload_length := d.length, success := true, completed := true }) ∧
    (shims.log = false →
      diagnostic_receive_can_frame T shims handle id1 data1 size1 = none) := by
  refine ⟨?_, ?_, ?_⟩
  · have hcount := (diagnostic_request_sessions T request callback handle hhandle).1
    rw [if_pos harb] at hcount
    exact hcount
  · intro hlog
    have h1 := receive_with_logger T shims handle id1 data1 size1 hlog
    obtain ⟨-, h2, h3, h4, h5⟩ :=
      broadcast_trace T request callback handle p q tail d id1 data1 size1 message1
        id2 data2 size2 message2 harb hmode hpid hp hp1 hL hhandle hre1 hm1 hs1 hq hqp
        (hre2 _ h1) hm2 hs2
    exact ⟨_, _, h1, h2, h3, receive_with_logger T shims _ id2 data2 size2 hlog, h4, h5⟩
  · intro hlog
    exact receive_without_logger T shims handle id1 data1 size1 message1 hlog hre1.1 hre1.2

/-- Witness of C9: the broadcast request for pid 0x0D. With a logging shim,
session 0x7E8 reassembles `41 0C 10`, then session 0x7E9 reassembles
`41 0D 32`, which completes the handle with pid 0x0D and payload `[0x32]`;
with `log = NULL` the first call returns nothing. -/
theorem broadcast_mismatch_then_match_witness :
    ∃ handle : DiagnosticRequestHandle Bool Nat,
      diagnostic_request frame_transport (pid_request 0x7df 0x01 0x0d 0) true = some handle ∧
      handle.isotp_receive_handle_count = OBD2_FUNCTIONAL_RESPONSE_COUNT ∧
      (∃ r1 r2,
        diagnostic_receive_can_frame frame_transport (diagnostic_init_shims true true true)
          handle 0x7e8 [0x41, 0x0c, 0x10] 3 = some r1 ∧
        r1.handle.completed = false ∧
        r1.response.completed = false ∧
        diagnostic_receive_can_frame frame_transport (diagnostic_init_shims true true true)
          r1.handle 0x7e9 [0x41, 0x0d, 0x32] 3 = some r2 ∧
        r2.handle.completed = true ∧
        r2.response =
          { completed := true, success := true, arbitration_id := 0x7e9, mode := 0x01,
            has_pid := true, pid := 0x0d, negative_response_code := 0,
            payload := [0x32], payload_length := 1 }) ∧
      diagnostic_receive_can_frame frame_transport (diagnostic_init_shims false true true)
        handle 0x7e8 [0x41, 0x0c, 0x10] 3 = none :=
  ⟨_, rfl, rfl,
    (broadcast_mismatch_then_match frame_transport (diagnostic_init_shims true true true)
      (pid_request 0x7df 0x01 0x0d 0) true _
      0x0d 0x0c [0x10] [0x32]
      0x7e8 [0x41, 0x0c, 0x10] 3 (frame_message 0x7e8 [0x41, 0x0c, 0x10])
      0x7e9 [0x41, 0x0d, 0x32] 3 (frame_message 0x7e9 [0x41, 0x0d, 0x32])
      rfl rfl rfl rfl (by decide) (by decide) rfl ⟨rfl, rfl⟩ rfl rfl (by decide) (by decide)
      (fun r1 h => by
        obtain rfl := receive_some _ _ _ _ _ _ r1 h
        exact ⟨rfl, rfl⟩)
      rfl rfl).2.1 rfl,
    (broadcast_mismatch_then_match frame_transport (diagnostic_init_shims false true true)
      (pid_request 0x7df 0x01 0x0d 0) true _
      0x0d 0x0c [0x10] [0x32]
      0x7e8 [0x41, 0x0c, 0x10] 3 (frame_message 0x7e8 [0x41, 0x0c, 0x10])
      0x7e9 [0x41, 0x0d, 0x32] 3 (frame_message 0x7e9 [0x41, 0x0d, 0x32])
      rfl rfl rfl rfl (by decide) (by decide) rfl ⟨rfl, rfl⟩ rfl rfl (by decide) (by decide)
      (fun r1 h => by
        obtain rfl := receive_some _ _ _ _ _ _ r1 h
        exact ⟨rfl, rfl⟩)
      rfl rfl).2.2 rfl⟩

/-- C10. Receive-session opening: `setup_receive_handle` gives a handle whose
request is addressed to 0x7DF a session count of 8 and eight sessions, session
`i` opened on arbitration id `0x7E8 + i`; it gives any other handle a session
count of 1 and the single session opened on `request.arbitration_id + 8`. The
handle `diagnostic_request` returns carries exactly these sessions. -/
theorem receive_session_opening {S R : Type} (T : IsoTp S R)
    (handle : DiagnosticRequestHandle S R) :
    (handle.request.arbitration_id = 0x7df →
      (setup_receive_handle T handle).isotp_receive_handle_count = 8 ∧
      (setup_receive_handle T handle).isotp_receive_handles.length = 8 ∧
      ∀ i, i < 8 →
        (setup_receive_handle T handle).isotp_receive_handles[i]? =
          some (T.isotp_receive (0x7e8 + i))) ∧
    (handle.request.arbitration_id ≠ 0x7df →
      (setup_receive_handle T handle).isotp_receive_handle_count = 1 ∧
      (setup_receive_handle T handle).isotp_receive_handles =
        [T.isotp_receive (handle.request.arbitration_id + 8)]) ∧
    (∀ (request : DiagnosticRequest) (callback : Bool) (made : DiagnosticRequestHandle S R),
      diagnostic_request T request callback = some made →
      made.request.arbitration_id = request.arbitration_id ∧
      made.isotp_receive_handle_count = (setup_receive_handle T made).isotp_receive_handle_count ∧
      made.isotp_receive_handles = (setup_receive_handle T made).isotp_receive_handles) := by
  refine ⟨?_, ?_, ?_⟩
  · intro h
    unfold setup_receive_handle
    rw [if_pos h]
    refine ⟨rfl, rfl, ?_⟩
    intro i hi
    interval_cases i <;> rfl
  · intro h
    unfold setup_receive_handle
    rw [if_neg h]
    exact ⟨rfl, rfl⟩
  · intro request callback made hmade
    obtain ⟨hreq, -⟩ := diagnostic_request_some T request callback made hmade
    have hsess := diagnostic_request_sessions T request callback made hmade
    have harb : made.request.arbitration_id = request.arbitration_id := by rw [hreq]
    refine ⟨harb, ?_, ?_⟩
    · rw [hsess.1]
      unfold setup_receive_handle
      rw [harb]
      split <;> rfl
    · rw [hsess.2]
      unfold setup_receive_handle
      rw [harb]
      split <;> rfl

/-- Witness of C10: over the transport double, whose sessions are their
arbitration ids, a request to 0x7DF opens the eight sessions 0x7E8 to 0x7EF and
a request to 0x7E0 opens the single session 0x7E8. -/
theorem receive_session_opening_witness :
    (setup_receive_handle frame_transport
        (receiving_handle (pid_request 0x7df 0x01 0x0d 1) [])).isotp_receive_handles =
      [0x7e8, 0x7e9, 0x7ea, 0x7eb, 0x7ec, 0x7ed, 0x7ee, 0x7ef] ∧
    (setup_receive_handle frame_transport
        (receiving_handle (pid_request 0x7df 0x01 0x0d 1) [])).isotp_receive_handle_count = 8 ∧
    (setup_receive_handle frame_transport
        (receiving_handle (pid_request 0x7e0 0x01 0x0d 1) [])).isotp_receive_handle_count = 1 ∧
    (setup_receive_handle frame_transport
        (receiving_handle (pid_request 0x7e0 0x01 0x0d 1) [])).isotp_receive_handles =
      [frame_transport.isotp_receive (0x7e0 + 8)] :=
  ⟨rfl,
    ((receive_session_opening frame_transport
      (receiving_handle (pid_request 0x7df 0x01 0x0d 1) [])).1 rfl).1,
    ((receive_session_opening frame_transport
      (receiving_handle (pid_request 0x7e0 0x01 0x0d 1) [])).2.1 (by decide)).1,
    ((receive_session_opening frame_transport
      (receiving_handle (pid_request 0x7e0 0x01 0x0d 1) [])).2.1 (by decide)).2⟩

/-- C11. Idempotence on a completed handle: take a handle the engine has
produced (returned by `diagnostic_request` and fed any frames with
`diagnostic_receive_can_frame`, whatever the shims are) that has
`completed = true`. Feeding it any frame is a call that returns, leaves its
`success` and `completed` as they were and leaves the request it embeds,
payload included, untouched; the responses already returned, payloads
included, are the same after the call, which only adds its own response to
them. -/
theorem idempotent_on_completed {S R : Type} (T : IsoTp S R) (shims : DiagnosticShims)
    (request : DiagnosticRequest) (callback : Bool) (start : DiagnosticRequestHandle S R)
    (before : List CanFrame) (frame : CanFrame) (fed : FeedResult S R)
    (hstart : diagnostic_request T request callback = some start)
    (hfed : feed_frames T shims start before = some fed)
    (hc : fed.handle.completed = true) :
    ∃ r, diagnostic_receive_can_frame T shims fed.handle frame.arbitration_id frame.data
        frame.size = some r ∧
      r.handle.success = fed.handle.success ∧
      r.handle.completed = fed.handle.completed ∧
      r.handle.request = fed.handle.request ∧
      (feed_frames T shims start (before ++ [frame])).map (fun after => after.responses) =
        some (fed.responses ++ [r.response]) := by
  have hlog : shims.log = true := by
    cases hl : shims.log
    · have hflags := feed_frames_flags_without_logger T shims start before fed hl hfed
      obtain ⟨-, -, hc0, -⟩ := diagnostic_request_some T request callback start hstart
      rw [hflags.2, hc0] at hc
      exact Bool.noConfusion hc
    · rfl
  have hfed2 := feed_frames_some T shims start before fed hfed
  subst hfed2
  have hcall := receive_with_logger T shims (feed_outcome T start before).handle
    frame.arbitration_id frame.data frame.size hlog
  obtain ⟨h1, h2, h3, -⟩ :=
    completed_handle_flags T request callback start before frame hstart hc
  refine ⟨_, hcall, h1, h2, h3, ?_⟩
  rw [feed_frames_append, hfed, Option.some_bind, hcall]
  rfl

/-- Witness of C11: the handle for mode 0x01, pid 0x0C has completed on
`41 0C 1A F8`; a second matching frame `41 0C 1B 00` leaves both flags true and
the first response, with payload `[0x1A, 0xF8]`, is still the first of the two
responses returned. -/
theorem idempotent_on_completed_witness :
    ∃ fed,
      feed_frames frame_transport (diagnostic_init_shims true true true)
        (setup_receive_handle frame_transport
          (receiving_handle (pid_request 0x7e0 0x01 0x0c 1) []))
        [{ arbitration_id := 0x7e8, data := [0x41, 0x0c, 0x1a, 0xf8], size := 4 }]
        = some fed ∧
      fed.handle.completed = true ∧
      (∃ r, diagnostic_receive_can_frame frame_transport
          (diagnostic_init_shims true true true) fed.handle
          0x7e8 [0x41, 0x0c, 0x1b, 0x00] 4 = some r ∧
        r.handle.success = true ∧
        r.handle.completed = true ∧
        r.handle.request = pid_request 0x7e0 0x01 0x0c 1 ∧
        (feed_frames frame_transport (diagnostic_init_shims true true true)
          (setup_receive_handle frame_transport
            (receiving_handle (pid_request 0x7e0 0x01 0x0c 1) []))
          ([{ arbitration_id := 0x7e8, data := [0x41, 0x0c, 0x1a, 0xf8], size := 4 }] ++
            [{ arbitration_id := 0x7e8, data := [0x41, 0x0c, 0x1b, 0x00], size := 4 }])
          ).map (fun after => after.responses) = some (fed.responses ++ [r.response])) ∧
      (feed_frames frame_transport (diagnostic_init_shims true true true)
        (setup_receive_handle frame_transport
          (receiving_handle (pid_request 0x7e0 0x01 0x0c 1) []))
        [{ arbitration_id := 0x7e8, data := [0x41, 0x0c, 0x1a, 0xf8], size := 4 },
         { arbitration_id := 0x7e8, data := [0x41, 0x0c, 0x1b, 0x00], size := 4 }]).map
          (fun after => after.responses.map (fun response => response.payload)) =
        some [[0x1a, 0xf8], [0x1b, 0x00]] :=
  ⟨_, rfl, rfl,
    idempotent_on_completed frame_transport (diagnostic_init_shims true true true)
      (pid_request 0x7e0 0x01 0x0c 1) true
      (setup_receive_handle frame_transport
        (receiving_handle (pid_request 0x7e0 0x01 0x0c 1) []))
      [{ arbitration_id := 0x7e8, data := [0x41, 0x0c, 0x1a, 0xf8], size := 4 }]
      { arbitration_id := 0x7e8, data := [0x41, 0x0c, 0x1b, 0x00], size := 4 }
      _ rfl rfl rfl,
    rfl⟩

/-- C12. The code at the failing input, with a logging shim set: the handle
for mode 0x01, pid 0x0C is fed `41 0C 1A F8` and completes. Fed `41 0C 1B 00`
next, the completed handle classifies again: the call returns a second
completed response and invokes the callback a second time. Fed the unrelated
`49 02 01` instead, the completed handle invokes the callback with a response
that has `completed = false`. The receive path has no test of
`handle->completed` before line 249. -/
theorem completed_handle_answers_again :
    (feed_frames frame_transport (diagnostic_init_shims true true true)
        (receiving_handle (pid_request 0x7e0 0x01 0x0c 1) [0x7e8])
        [{ arbitration_id := 0x7e8, data := [0x41, 0x0c, 0x1a, 0xf8], size := 4 }]
      ).map (fun fed => fed.handle.completed) = some true ∧
    (feed_frames frame_transport (diagnostic_init_shims true true true)
        (receiving_handle (pid_request 0x7e0 0x01 0x0c 1) [0x7e8])
        [{ arbitration_id := 0x7e8, data := [0x41, 0x0c, 0x1a, 0xf8], size := 4 },
         { arbitration_id := 0x7e8, data := [0x41, 0x0c, 0x1b, 0x00], size := 4 }]
      ).map (fun fed =>
        fed.responses.map (fun response => (response.completed, response.payload)))
      = some [(true, [0x1a, 0xf8]), (true, [0x1b, 0x00])] ∧
    (feed_frames frame_transport (diagnostic_init_shims true true true)
        (receiving_handle (pid_request 0x7e0 0x01 0x0c 1) [0x7e8])
        [{ arbitration_id := 0x7e8, data := [0x41, 0x0c, 0x1a, 0xf8], size := 4 },
         { arbitration_id := 0x7e8, data := [0x41, 0x0c, 0x1b, 0x00], size := 4 }]
      ).map (fun fed => fed.callback_calls.length) = some 2 ∧
    (feed_frames frame_transport (diagnostic_init_shims true true true)
        (receiving_handle (pid_request 0x7e0 0x01 0x0c 1) [0x7e8])
        [{ arbitration_id := 0x7e8, data := [0x41, 0x0c, 0x1a, 0xf8], size := 4 },
         { arbitration_id := 0x7e8, data := [0x49, 0x02, 0x01], size := 3 }]
      ).map (fun fed => fed.callback_calls.map (fun response => response.completed))
      = some [true, false] := by
  decide

/-- C13. Sending state: while the send session is not complete, a call of
`diagnostic_receive_can_frame` returns, whatever the shims are (no log call is
made on this path), having handed the frame to `isotp_continue_send` and done
nothing else: the receive sessions are as before and no receive operation of
the transport plays a part (any transport with the same send operations gives
the same result), the handle's `success` and `completed` are unchanged, the
callback is not invoked, and the returned response has `success = false`,
`completed = false` and the frame's arbitration id. -/
theorem sending_state_forwards_only {S R : Type} (T : IsoTp S R) (shims : DiagnosticShims)
    (handle : DiagnosticRequestHandle S R) (arbitration_id : Nat) (data : List Nat)
    (size : Nat)
    (hs : T.send_completed handle.isotp_send_handle = false) :
    ∃ r, diagnostic_receive_can_frame T shims handle arbitration_id data size = some r ∧
      r.handle.isotp_send_handle
        = T.isotp_continue_send handle.isotp_send_handle arbitration_id data size ∧
      r.handle.isotp_receive_handles = handle.isotp_receive_handles ∧
      r.handle.isotp_receive_handle_count = handle.isotp_receive_handle_count ∧
      (∀ T2 : IsoTp S R,
        T2.send_completed = T.send_completed →
        T2.isotp_continue_send = T.isotp_continue_send →
        diagnostic_receive_can_frame T2 shims handle arbitration_id data size = some r) ∧
      r.handle.success = handle.success ∧
      r.handle.completed = handle.completed ∧
      r.handle.request = handle.request ∧
      r.callback_calls = [] ∧
      r.response.success = false ∧
      r.response.completed = false ∧
      r.response.arbitration_id = arbitration_id := by
  have hcall : ∀ T2 : IsoTp S R, T2.send_completed handle.isotp_send_handle = false →
      diagnostic_receive_can_frame T2 shims handle arbitration_id data size =
        some
          { handle := { handle with
              isotp_send_handle :=
                T2.isotp_continue_send handle.isotp_send_handle arbitration_id data size }
            response := fresh_response arbitration_id
            callback_calls := [] } := by
    intro T2 h2
    unfold diagnostic_receive_can_frame
    rw [if_pos h2]
  refine ⟨_, hcall T hs, rfl, rfl, rfl, ?_, rfl, rfl, rfl, rfl, rfl, rfl, rfl⟩
  intro T2 h1 h2
  rw [hcall T2 (by rw [h1]; exact hs), h2]

/-- Witness of C13: a handle whose send session is not complete is fed a frame
on 0x7E8, with no logging shim set; the call returns, its session list and
flags stay, no callback, empty response. -/
theorem sending_state_forwards_only_witness :
    ∃ r, diagnostic_receive_can_frame frame_transport (diagnostic_init_shims false true true)
        { receiving_handle (pid_request 0x7e0 0x01 0x0c 1) [0x7e8] with
          isotp_send_handle := false }
        0x7e8 [0x41, 0x0c, 0x1a, 0xf8] 4 = some r ∧
      r.handle.isotp_receive_handles = [0x7e8] ∧
      r.handle.completed = false ∧
      r.callback_calls = [] ∧
      r.response = fresh_response 0x7e8 :=
  have ⟨r, hr, h⟩ := sending_state_forwards_only frame_transport
    (diagnostic_init_shims false true true)
    { receiving_handle (pid_request 0x7e0 0x01 0x0c 1) [0x7e8] with
      isotp_send_handle := false }
    0x7e8 [0x41, 0x0c, 0x1a, 0xf8] 4 rfl
  ⟨r, hr, h.2.1, h.2.2.2.2.2.1, h.2.2.2.2.2.2.2.1, by
    have e := receive_some _ _ _ _ _ _ r hr
    rw [e]
    rfl⟩

/-- C14. PID convenience constructor: for every arbitration id and 16-bit pid,
`diagnostic_request_pid` returns a handle whose request has `has_pid = true`
and the given pid, with mode 0x01 and `pid_length = 1` for
`DIAGNOSTIC_STANDARD_PID` and mode 0x22 and `pid_length = 2` for
`DIAGNOSTIC_ENHANCED_PID`. -/
theorem pid_convenience_constructor {S R : Type} (T : IsoTp S R)
    (pid_request_type : DiagnosticPidRequestType) (arbitration_id pid : Nat)
    (callback : Bool) (hpid : pid < 65536) :
    ∃ handle : DiagnosticRequestHandle S R,
      diagnostic_request_pid T pid_request_type arbitration_id pid callback = some handle ∧
      handle.request.has_pid = true ∧
      handle.request.pid = pid ∧
      handle.request.arbitration_id = arbitration_id ∧
      (pid_request_type = DiagnosticPidRequestType.DIAGNOSTIC_STANDARD_PID →
        handle.request.mode = 0x01 ∧ handle.request.pid_length = 1) ∧
      (pid_request_type = DiagnosticPidRequestType.DIAGNOSTIC_ENHANCED_PID →
        handle.request.mode = 0x22 ∧ handle.request.pid_length = 2) := by
  have hnot : ¬ pid > 0xffff := by omega
  obtain ⟨handle, hsome⟩ := diagnostic_request_without_payload T
    { arbitration_id := arbitration_id
      mode := if pid_request_type = DiagnosticPidRequestType.DIAGNOSTIC_STANDARD_PID
        then 0x1 else 0x22
      has_pid := true, pid := pid, pid_length := 0, payload := [], payload_length := 0 }
    callback rfl
  obtain ⟨hreq, -⟩ := diagnostic_request_some T _ callback handle hsome
  refine ⟨handle, hsome, by rw [hreq], by rw [hreq], by rw [hreq], ?_, ?_⟩
  · intro ht
    rw [hreq]
    simp [resolved_pid_length, autoset_pid_length, ht, hnot]
  · intro ht
    rw [hreq]
    simp [resolved_pid_length, autoset_pid_length, ht]

/-- Witness of C14: the standard request for pid 0x0C at 0x7E0 and the enhanced
request for pid 0x010C. -/
theorem pid_convenience_constructor_witness :
    (∃ handle : DiagnosticRequestHandle Bool Nat,
      diagnostic_request_pid frame_transport DiagnosticPidRequestType.DIAGNOSTIC_STANDARD_PID
        0x7e0 0x0c true = some handle ∧
      handle.request.has_pid = true ∧
      handle.request.pid = 0x0c ∧
      handle.request.arbitration_id = 0x7e0 ∧
      (DiagnosticPidRequestType.DIAGNOSTIC_STANDARD_PID
          = DiagnosticPidRequestType.DIAGNOSTIC_STANDARD_PID →
        handle.request.mode = 0x01 ∧ handle.request.pid_length = 1) ∧
      (DiagnosticPidRequestType.DIAGNOSTIC_STANDARD_PID
          = DiagnosticPidRequestType.DIAGNOSTIC_ENHANCED_PID →
        handle.request.mode = 0x22 ∧ handle.request.pid_length = 2)) ∧
    (diagnostic_request_pid frame_transport DiagnosticPidRequestType.DIAGNOSTIC_ENHANCED_PID
        0x7e0 0x010c true).map (fun handle => (handle.request.mode, handle.request.pid_length))
      = some (0x22, 2) :=
  ⟨pid_convenience_constructor frame_transport
      DiagnosticPidRequestType.DIAGNOSTIC_STANDARD_PID 0x7e0 0x0c true (by decide),
    rfl⟩

/-- C18. Auto pid-length cases: with `pid_length` supplied as 0,
`autoset_pid_length` returns 2 for every pid whenever `mode > 10`, and returns 1
whenever `mode <= 10` and `pid <= 0xFF`. -/
theorem autoset_pid_length_cases (mode pid : Nat) :
    (mode > 10 → autoset_pid_length mode pid 0 = 2) ∧
    (mode ≤ 10 → pid ≤ 0xff → autoset_pid_length mode pid 0 = 1) := by
  constructor
  · intro h
    simp [autoset_pid_length, h]
  · intro h1 h2
    have hnot : ¬ (pid > 0xffff ∨ mode > 10) := by omega
    simp only [autoset_pid_length, if_true, if_neg hnot]

/-- Witness of C18: (mode 1, pid 0x0C) gives 1; (mode 0x22, pid 0x010C) gives 2;
(mode 11, pid 0x05) gives 2. -/
theorem autoset_pid_length_cases_witness :
    autoset_pid_length 1 0x0c 0 = 1 ∧
    autoset_pid_length 0x22 0x010c 0 = 2 ∧
    autoset_pid_length 11 0x05 0 = 2 :=
  ⟨(autoset_pid_length_cases 1 0x0c).2 (by decide) (by decide),
    (autoset_pid_length_cases 0x22 0x010c).1 (by decide),
    (autoset_pid_length_cases 11 0x05).1 (by decide)⟩

/-- C15. Positive match without PID: for a request with `has_pid = false` and
`pid_length = 0`, whatever its `pid` field holds, and a reassembled message of
size `n >= 1` whose first byte is `request.mode + 0x40`,
`handle_positive_response` (run on the response `diagnostic_receive_can_frame`
hands it) reports a match and leaves a response with mode `request.mode`,
`has_pid = false`, payload the message bytes 1..n-1, `payload_length = n - 1`,
`success = true` and `completed = true`. When the request's mode is not 0x3F
and a logging shim is set, `diagnostic_receive_can_frame` returns this
response. -/
theorem positive_match_without_pid {S R : Type} (T : IsoTp S R)
    (handle : DiagnosticRequestHandle S R) (message : IsoTpMessage) (arbitration_id : Nat)
    (hpid : handle.request.has_pid = false) (hlen : handle.request.pid_length = 0)
    (hn : 1 ≤ message.size) (hsize : message.size = message.payload.length)
    (h0 : byte_at message.payload 0 = handle.request.mode + MODE_RESPONSE_OFFSET) :
    handle_positive_response handle message
        { fresh_response arbitration_id with mode := byte_at message.payload 0 } =
      (true,
        { fresh_response arbitration_id with
          mode := handle.request.mode, has_pid := false,
          payload := message.payload.drop 1, payload_length := message.size - 1,
          success := true, completed := true }) ∧
    (handle.request.mode ≠ 0x3f →
      ∀ (shims : DiagnosticShims) (data : List Nat) (size : Nat),
        shims.log = true →
        Reassembles T handle arbitration_id data size message →
        (diagnostic_receive_can_frame T shims handle arbitration_id data size).map
            (fun r => r.response) =
          some { fresh_response arbitration_id with
            mode := handle.request.mode, has_pid := false,
            payload := message.payload.drop 1, payload_length := message.size - 1,
            success := true, completed := true }) := by
  obtain ⟨hfn, hcall⟩ :=
    receive_match_without_pid T handle message arbitration_id hpid hlen hn hsize h0
  refine ⟨hfn, ?_⟩
  intro hmode shims data size hlog hre
  rw [receive_with_logger T shims handle arbitration_id data size hlog, Option.map_some']
  exact congrArg some (hcall hmode data size hre)

/-- Witness of C15: a mode 0x3E request without PID, whose unused `pid` field
holds 5, is answered by `7E 00`: a match with payload `[0x00]`. -/
theorem positive_match_without_pid_witness :
    handle_positive_response
        (receiving_handle
          { arbitration_id := 0x7e0, mode := 0x3e, has_pid := false, pid := 5,
            pid_length := 0, payload := [], payload_length := 0 } [0x7e8])
        (frame_message 0x7e8 [0x7e, 0x00])
        { fresh_response 0x7e8 with mode := 0x7e } =
      (true,
        { completed := true, success := true, arbitration_id := 0x7e8, mode := 0x3e,
          has_pid := false, pid := 0, negative_response_code := 0,
          payload := [0x00], payload_length := 1 }) :=
  (positive_match_without_pid frame_transport
    (receiving_handle
      { arbitration_id := 0x7e0, mode := 0x3e, has_pid := false, pid := 5,
        pid_length := 0, payload := [], payload_length := 0 } [0x7e8])
    (frame_message 0x7e8 [0x7e, 0x00]) 0x7e8 rfl rfl (by decide) rfl rfl).1

/-- C19. The code at the failing input: for a mode 0x22 request with the
two-byte pid 0x1234, `handle_positive_response` is handed the two-byte message
`62 12`, shorter than `1 + pid_length = 3`. It sets `has_pid = true` (line 176
tests only `size > 1`), with pid 0, and reports no match; for the same request
with pid 0 the truncated message is accepted as a match with `has_pid = true`. -/
theorem short_message_sets_has_pid :
    (frame_message 0x7e8 [0x62, 0x12]).size < 1 + (pid_request 0x7e0 0x22 0x1234 2).pid_length ∧
    (handle_positive_response (receiving_handle (pid_request 0x7e0 0x22 0x1234 2) [0x7e8])
        (frame_message 0x7e8 [0x62, 0x12])
        { fresh_response 0x7e8 with mode := 0x62 }).2.has_pid = true ∧
    (handle_positive_response (receiving_handle (pid_request 0x7e0 0x22 0x1234 2) [0x7e8])
        (frame_message 0x7e8 [0x62, 0x12])
        { fresh_response 0x7e8 with mode := 0x62 }).2.pid = 0 ∧
    (handle_positive_response (receiving_handle (pid_request 0x7e0 0x22 0x1234 2) [0x7e8])
        (frame_message 0x7e8 [0x62, 0x12])
        { fresh_response 0x7e8 with mode := 0x62 }).1 = false ∧
    handle_positive_response (receiving_handle (pid_request 0x7e0 0x22 0 2) [0x7e8])
        (frame_message 0x7e8 [0x62, 0x12])
        { fresh_response 0x7e8 with mode := 0x62 } =
      (true,
        { completed := true, success := true, arbitration_id := 0x7e8, mode := 0x22,
          has_pid := true, pid := 0, negative_response_code := 0,
          payload := [], payload_length := 0 }) := by
  decide

/-- C20. Response payload length is clamped at 0: for a request whose resolved
`pid_length` `L` is below 255 (so in particular 0, 1 or 2) and a reassembled
message of size `n` whose first byte is `request.mode + 0x40`,
`handle_positive_response` leaves `payload_length = max(0, n - (1 + L))`, the
difference being taken on integers; when `n > 1 + L` the payload is exactly the
message bytes `1 + L .. n - 1`, and when `n <= 1 + L` the payload length is 0
and nothing is copied (the payload is as it was). The clamp is the one `MAX`
makes on line 187: the stored length is, as an integer, the value `MAX` returns,
which is never negative, so the unsigned store does not wrap, whereas the
difference of a message shorter than `1 + L`, stored as it is, would (`-1`
would read 255). -/
theorem payload_length_clamped {S R : Type} (handle : DiagnosticRequestHandle S R)
    (message : IsoTpMessage) (response : DiagnosticResponse)
    (hmode : response.mode = handle.request.mode + MODE_RESPONSE_OFFSET)
    (hL : handle.request.pid_length < 255) :
    (((handle_positive_response handle message response).2.payload_length : Nat) : Int) =
      max 0 ((message.size : Int) - (1 + (handle.request.pid_length : Int))) ∧
    (message.size > 1 + handle.request.pid_length →
      (handle_positive_response handle message response).2.payload =
        (message.payload.drop (1 + handle.request.pid_length)).take
          (message.size - (1 + handle.request.pid_length))) ∧
    (message.size ≤ 1 + handle.request.pid_length →
      (handle_positive_response handle message response).2.payload_length = 0 ∧
      (handle_positive_response handle message response).2.payload = response.payload) ∧
    (((handle_positive_response handle message response).2.payload_length : Nat) : Int) =
      MAX 0 ((message.size : Int) - (1 + (handle.request.pid_length : Int))) ∧
    (message.size < 1 + handle.request.pid_length →
      to_unsigned ((message.size : Int) - (1 + (handle.request.pid_length : Int))) =
        256 - (1 + handle.request.pid_length - message.size)) := by
  obtain ⟨hlen, hpay⟩ := handle_positive_response_payload handle message response hmode
  have hidx : (1 + handle.request.pid_length) % 256 = 1 + handle.request.pid_length :=
    Nat.mod_eq_of_lt (by omega)
  rw [hidx] at hlen hpay
  refine ⟨?_, ?_, ?_, ?_, ?_⟩
  · rw [hlen]
    omega
  · intro h
    rw [hpay, if_pos (by omega)]
  · intro h
    refine ⟨by rw [hlen]; omega, ?_⟩
    rw [hpay, if_neg (by omega)]
  · rw [hlen]
    unfold MAX
    split <;> omega
  · intro h
    unfold to_unsigned
    rw [if_pos (by omega)]
    omega

/-- Witness of C20: for a mode 0x22 request with a two-byte pid, the message
`62 12 34 AA BB` leaves payload `[0xAA, 0xBB]` of length 2, and the short
message `62 12` leaves payload length 0 and no payload. -/
theorem payload_length_clamped_witness :
    (handle_positive_response (receiving_handle (pid_request 0x7e0 0x22 0x1234 2) [0x7e8])
        (frame_message 0x7e8 [0x62, 0x12, 0x34, 0xaa, 0xbb])
        { fresh_response 0x7e8 with mode := 0x62 }).2.payload = [0xaa, 0xbb] ∧
    (((handle_positive_response (receiving_handle (pid_request 0x7e0 0x22 0x1234 2) [0x7e8])
        (frame_message 0x7e8 [0x62, 0x12, 0x34, 0xaa, 0xbb])
        { fresh_response 0x7e8 with mode := 0x62 }).2.payload_length : Nat) : Int) = 2 ∧
    (handle_positive_response (receiving_handle (pid_request 0x7e0 0x22 0x1234 2) [0x7e8])
        (frame_message 0x7e8 [0x62, 0x12])
        { fresh_response 0x7e8 with mode := 0x62 }).2.payload_length = 0 ∧
    (handle_positive_response (receiving_handle (pid_request 0x7e0 0x22 0x1234 2) [0x7e8])
        (frame_message 0x7e8 [0x62, 0x12])
        { fresh_response 0x7e8 with mode := 0x62 }).2.payload = [] :=
  have hlong := payload_length_clamped (receiving_handle (pid_request 0x7e0 0x22 0x1234 2) [0x7e8])
    (frame_message 0x7e8 [0x62, 0x12, 0x34, 0xaa, 0xbb])
    { fresh_response 0x7e8 with mode := 0x62 } rfl (by decide)
  have hshort := payload_length_clamped
    (receiving_handle (pid_request 0x7e0 0x22 0x1234 2) [0x7e8])
    (frame_message 0x7e8 [0x62, 0x12])
    { fresh_response 0x7e8 with mode := 0x62 } rfl (by decide)
  ⟨hlong.2.1 (by decide), hlong.1, (hshort.2.2.1 (by decide)).1,
    (hshort.2.2.1 (by decide)).2⟩

/-- C16. PID decode formulas, in exact arithmetic: for a response with pid 0x0C
and payload bytes `A`, `B`, `diagnostic_decode_obd2_pid` returns
`(256 * A + B) / 4`; for a response with pid 0x05 and payload byte `A` it
returns `A - 40` as a signed value, between -40 and 215 for a byte `A`. -/
theorem pid_decode_formulas (response : DiagnosticResponse) (A B : Nat)
    (hA : byte_at response.payload 0 = A) (hB : byte_at response.payload 1 = B) :
    (response.pid = 0x0c →
      diagnostic_decode_obd2_pid response = (256 * (A : ℚ) + (B : ℚ)) / 4) ∧
    (response.pid = 0x05 →
      diagnostic_decode_obd2_pid response = (A : ℚ) - 40 ∧
      (A < 256 →
        (-40 : ℚ) ≤ diagnostic_decode_obd2_pid response ∧
        diagnostic_decode_obd2_pid response ≤ 215)) := by
  constructor
  · intro h
    simp only [diagnostic_decode_obd2_pid, h, hA, hB]
    norm_num
    ring
  · intro h
    have hval : diagnostic_decode_obd2_pid response = (A : ℚ) - 40 := by
      simp only [diagnostic_decode_obd2_pid, h, hA, hB]
      norm_num
    refine ⟨hval, ?_⟩
    intro hlt
    rw [hval]
    have h1 : (0 : ℚ) ≤ (A : ℚ) := Nat.cast_nonneg A
    have h2 : (A : ℚ) ≤ 255 := by exact_mod_cast Nat.lt_succ_iff.mp hlt
    constructor <;> linarith

/-- Witness of C16: pid 0x0C with payload `[0x1A, 0xF8]` decodes to 1726; pid
0x05 with payload `[0x5A]` decodes to 50. -/
theorem pid_decode_formulas_witness :
    diagnostic_decode_obd2_pid
        { fresh_response 0x7e8 with pid := 0x0c, payload := [0x1a, 0xf8], payload_length := 2 }
      = 1726 ∧
    diagnostic_decode_obd2_pid
        { fresh_response 0x7e8 with pid := 0x05, payload := [0x5a], payload_length := 1 }
      = 50 :=
  ⟨((pid_decode_formulas
      { fresh_response 0x7e8 with pid := 0x0c, payload := [0x1a, 0xf8], payload_length := 2 }
      0x1a 0xf8 rfl rfl).1 rfl).trans (by norm_num),
    ((pid_decode_formulas
      { fresh_response 0x7e8 with pid := 0x05, payload := [0x5a], payload_length := 1 }
      0x5a 0 rfl rfl).2 rfl).1.trans (by norm_num)⟩

/-- C17. Unrecognized PID decodes to 0: for a response whose pid is none of
0x04, 0x05, 0x0A, 0x0B, 0x0C, 0x0D, 0x0F, 0x10, 0x11, 0x2F, 0x33, 0x45, 0x46,
0x4C, 0x52, 0x5A, 0x5C, 0x62, `diagnostic_decode_obd2_pid` returns 0 whatever
the payload bytes are. -/
theorem unrecognized_pid_decodes_to_zero (response : DiagnosticResponse)
    (h : response.pid ∉ [0x04, 0x05, 0x0a, 0x0b, 0x0c, 0x0d, 0x0f, 0x10, 0x11, 0x2f, 0x33,
      0x45, 0x46, 0x4c, 0x52, 0x5a, 0x5c, 0x62]) :
    diagnostic_decode_obd2_pid response = 0 := by
  simp only [List.mem_cons, List.mem_singleton, List.not_mem_nil, or_false, not_or] at h
  obtain ⟨h04, h05, h0a, h0b, h0c, h0d, h0f, h10, h11, h2f, h33, h45, h46, h4c, h52, h5a,
    h5c, h62⟩ := h
  simp only [diagnostic_decode_obd2_pid, h04, h05, h0a, h0b, h0c, h0d, h0f, h10, h11, h2f,
    h33, h45, h46, h4c, h52, h5a, h5c, h62, or_self, if_false]

/-- Witness of C17: pid 0x1234 with payload `[0xFF, 0xFF]` decodes to 0. -/
theorem unrecognized_pid_decodes_to_zero_witness :
    diagnostic_decode_obd2_pid
        { fresh_response 0x7e8 with pid := 0x1234, payload := [0xff, 0xff], payload_length := 2 }
      = 0 :=
  unrecognized_pid_decodes_to_zero
    { fresh_response 0x7e8 with pid := 0x1234, payload := [0xff, 0xff], payload_length := 2 }
    (by decide)

/-- C21. Negative classification does not depend on the request, and the run
in which it fails. Let two receiving handles, of any two requests, each be fed
a frame that makes a session report the same completed message starting with
0x7F. With a logging shim set on both sides, both calls of
`diagnostic_receive_can_frame` return a response with the same mode (message
byte 1 when present, else 0x7F), the same negative response code,
`success = false` and `completed = true`, and both handles are completed,
whether or not message byte 1 is the request's mode. The response holds nothing
of a positive match (`has_pid = false`, no payload), also for a request of mode
0x3F, whose positive response byte is 0x7F: the negative check comes first.
With no logging shim (`log = NULL`, which `uds.h` allows) the call reaches the
log call of line 228, made with no test of the pointer, and returns no
response. -/
theorem negative_independent_of_request {S1 R1 S2 R2 : Type}
    (T1 : IsoTp S1 R1) (shims1 : DiagnosticShims) (handle1 : DiagnosticRequestHandle S1 R1)
    (T2 : IsoTp S2 R2) (shims2 : DiagnosticShims) (handle2 : DiagnosticRequestHandle S2 R2)
    (id1 : Nat) (data1 : List Nat) (size1 : Nat)
    (id2 : Nat) (data2 : List Nat) (size2 : Nat) (message : IsoTpMessage)
    (hre1 : Reassembles T1 handle1 id1 data1 size1 message)
    (hre2 : Reassembles T2 handle2 id2 data2 size2 message)
    (hn : 1 ≤ message.size)
    (h0 : byte_at message.payload 0 = NEGATIVE_RESPONSE_MODE) :
    (shims1.log = true → shims2.log = true →
      ∃ r1 r2,
        diagnostic_receive_can_frame T1 shims1 handle1 id1 data1 size1 = some r1 ∧
        diagnostic_receive_can_frame T2 shims2 handle2 id2 data2 size2 = some r2 ∧
        r1.response.mode = r2.response.mode ∧
        r1.response.negative_response_code = r2.response.negative_response_code ∧
        r1.response.success = false ∧
        r2.response.success = false ∧
        r1.response.completed = true ∧
        r2.response.completed = true ∧
        r1.handle.completed = true ∧
        r2.handle.completed = true ∧
        r1.response =
          { fresh_response id1 with
            mode :=
              if message.size > 1 then byte_at message.payload 1 else NEGATIVE_RESPONSE_MODE
            negative_response_code :=
              if message.size > 2 then byte_at message.payload 2 else 0
            success := false
            completed := true }) ∧
    (shims1.log = false →
      diagnostic_receive_can_frame T1 shims1 handle1 id1 data1 size1 = none) ∧
    (shims2.log = false →
      diagnostic_receive_can_frame T2 shims2 handle2 id2 data2 size2 = none) :=
  ⟨fun hlog1 hlog2 =>
      ⟨_, _, receive_with_logger T1 shims1 handle1 id1 data1 size1 hlog1,
        receive_with_logger T2 shims2 handle2 id2 data2 size2 hlog2,
        receive_negative_independent T1 handle1 T2 handle2 id1 data1 size1 id2 data2 size2
          message hre1 hre2 hn h0⟩,
    fun hlog1 =>
      receive_without_logger T1 shims1 handle1 id1 data1 size1 message hlog1 hre1.1 hre1.2,
    fun hlog2 =>
      receive_without_logger T2 shims2 handle2 id2 data2 size2 message hlog2 hre2.1 hre2.2⟩

/-- Witness of C21: with a logging shim, the message `7F 22 11` is fed to a
handle waiting for mode 0x01 and to one waiting for mode 0x3F; both return mode
0x22, negative response code 0x11, and both handles complete. With `log = NULL`
the call on the handle waiting for mode 0x01 returns nothing. -/
theorem negative_independent_of_request_witness :
    (diagnostic_receive_can_frame frame_transport (diagnostic_init_shims true true true)
        (receiving_handle (pid_request 0x7e0 0x01 0x0c 1) [0x7e8])
        0x7e8 [0x7f, 0x22, 0x11] 3).map (fun r => r.response) =
      some
        { completed := true, success := false, arbitration_id := 0x7e8, mode := 0x22,
          has_pid := false, pid := 0, negative_response_code := 0x11,
          payload := [], payload_length := 0 } ∧
    (diagnostic_receive_can_frame frame_transport (diagnostic_init_shims true true true)
        (receiving_handle (pid_request 0x7e0 0x3f 0x0c 1) [0x7e8])
        0x7e8 [0x7f, 0x22, 0x11] 3).map
          (fun r => (r.response.mode, r.response.success, r.handle.completed)) =
      some (0x22, false, true) ∧
    diagnostic_receive_can_frame frame_transport (diagnostic_init_shims false true true)
        (receiving_handle (pid_request 0x7e0 0x01 0x0c 1) [0x7e8])
        0x7e8 [0x7f, 0x22, 0x11] 3 = none :=
  ⟨rfl, rfl,
    (negative_independent_of_request
      frame_transport (diagnostic_init_shims false true true)
      (receiving_handle (pid_request 0x7e0 0x01 0x0c 1) [0x7e8])
      frame_transport (diagnostic_init_shims true true true)
      (receiving_handle (pid_request 0x7e0 0x3f 0x0c 1) [0x7e8])
      0x7e8 [0x7f, 0x22, 0x11] 3 0x7e8 [0x7f, 0x22, 0x11] 3
      (frame_message 0x7e8 [0x7f, 0x22, 0x11]) ⟨rfl, rfl⟩ ⟨rfl, rfl⟩ (by decide) rfl).2.1
      rfl⟩

/-- C22. Handle flag invariant: the handle `diagnostic_request` returns has
`success = false` and `completed = false`; in every state reached from it by a
sequence of `diagnostic_receive_can_frame` calls, whatever the shims are,
`success = completed`; and both flags are monotone: once a flag is true after
some calls, it is true after any further calls. With a logging shim set every
sequence of calls reaches a state. -/
theorem handle_flag_invariant {S R : Type} (T : IsoTp S R) (shims : DiagnosticShims)
    (request : DiagnosticRequest)
    (callback : Bool) (start : DiagnosticRequestHandle S R)
    (hstart : diagnostic_request T request callback = some start) :
    start.success = false ∧ start.completed = false ∧
    (∀ (frames : List CanFrame) (fed : FeedResult S R),
      feed_frames T shims start frames = some fed →
      fed.handle.success = fed.handle.completed) ∧
    (∀ (before later : List CanFrame) (fed after : FeedResult S R),
      feed_frames T shims start before = some fed →
      feed_frames T shims start (before ++ later) = some after →
      (fed.handle.success = true → after.handle.success = true) ∧
      (fed.handle.completed = true → after.handle.completed = true)) ∧
    (shims.log = true →
      ∀ frames : List CanFrame, ∃ fed, feed_frames T shims start frames = some fed) := by
  obtain ⟨-, hs, hc, -⟩ := diagnostic_request_some T request callback start hstart
  refine ⟨hs, hc, ?_, ?_, ?_⟩
  · intro frames fed hfed
    rw [feed_frames_some T shims start frames fed hfed]
    exact engine_flags T request callback start frames hstart
  · intro before later fed after hfed hafter
    rw [feed_frames_some T shims start before fed hfed,
      feed_frames_some T shims start (before ++ later) after hafter, feed_outcome_concat]
    exact feed_outcome_monotone T (feed_outcome T start before).handle later
  · intro hlog frames
    exact ⟨_, feed_frames_with_logger T shims start frames hlog⟩

/-- Witness of C22: the handle for mode 0x01, pid 0x0C starts with both flags
false; after `41 0C 1A F8` both are true, and they are still true after the
unrelated `49 02 01` and the empty-payload `7F`. -/
theorem handle_flag_invariant_witness :
    (setup_receive_handle frame_transport
      (receiving_handle (pid_request 0x7e0 0x01 0x0c 1) [])).completed = false ∧
    (feed_frames frame_transport (diagnostic_init_shims true true true)
        (setup_receive_handle frame_transport
          (receiving_handle (pid_request 0x7e0 0x01 0x0c 1) []))
        [{ arbitration_id := 0x7e8, data := [0x41, 0x0c, 0x1a, 0xf8], size := 4 }]
      ).map (fun fed => fed.handle.completed) = some true ∧
    ∃ after,
      feed_frames frame_transport (diagnostic_init_shims true true true)
        (setup_receive_handle frame_transport
          (receiving_handle (pid_request 0x7e0 0x01 0x0c 1) []))
        ([{ arbitration_id := 0x7e8, data := [0x41, 0x0c, 0x1a, 0xf8], size := 4 }] ++
         [{ arbitration_id := 0x7e8, data := [0x49, 0x02, 0x01], size := 3 },
          { arbitration_id := 0x7e8, data := [0x7f], size := 1 }]) = some after ∧
      after.handle.completed = true ∧
      after.handle.success = true :=
  have h := handle_flag_invariant frame_transport (diagnostic_init_shims true true true)
    (pid_request 0x7e0 0x01 0x0c 1) true
    (setup_receive_handle frame_transport
      (receiving_handle (pid_request 0x7e0 0x01 0x0c 1) [])) rfl
  ⟨h.2.1, rfl, _, rfl,
    (h.2.2.2.1
      [{ arbitration_id := 0x7e8, data := [0x41, 0x0c, 0x1a, 0xf8], size := 4 }]
      [{ arbitration_id := 0x7e8, data := [0x49, 0x02, 0x01], size := 3 },
       { arbitration_id := 0x7e8, data := [0x7f], size := 1 }] _ _ rfl rfl).2 rfl,
    (h.2.2.2.1
      [{ arbitration_id := 0x7e8, data := [0x41, 0x0c, 0x1a, 0xf8], size := 4 }]
      [{ arbitration_id := 0x7e8, data := [0x49, 0x02, 0x01], size := 3 },
       { arbitration_id := 0x7e8, data := [0x7f], size := 1 }] _ _ rfl rfl).1 rfl⟩

/-- C23. Positive response without PID bytes against a PID request: for a
request with `has_pid = true` (and a `pid_length` below 255, so in particular
1 or 2) and a reassembled message of size exactly 1 whose only byte is
`request.mode + 0x40`, `handle_positive_response`, run on the response
`diagnostic_receive_can_frame` hands it, leaves `has_pid = false`, `pid = 0`
and `payload_length = 0`, and reports a match, with `success = true` and
`completed = true`, if and only if `request.pid = 0`. For a non-zero
`request.pid` it reports a mismatch, with `success = false` and
`completed = false`, and the call of `diagnostic_receive_can_frame` that
reaches it (the byte is not 0x7F, that is the mode is not 0x3F) returns, when a
logging shim is set, with the handle's `success`, `completed` and request
unchanged. -/
theorem positive_response_without_pid_bytes {S R : Type} (T : IsoTp S R)
    (handle : DiagnosticRequestHandle S R) (message : IsoTpMessage) (arbitration_id : Nat)
    (hpid : handle.request.has_pid = true) (hL : handle.request.pid_length < 255)
    (hsz : message.size = 1)
    (h0 : byte_at message.payload 0 = handle.request.mode + MODE_RESPONSE_OFFSET) :
    (handle_positive_response handle message
      { fresh_response arbitration_id with mode := byte_at message.payload 0 }).2.has_pid
      = false ∧
    (handle_positive_response handle message
      { fresh_response arbitration_id with mode := byte_at message.payload 0 }).2.pid = 0 ∧
    (handle_positive_response handle message
      { fresh_response arbitration_id with mode := byte_at message.payload 0 }).2.payload_length
      = 0 ∧
    (handle_positive_response handle message
      { fresh_response arbitration_id with mode := byte_at message.payload 0 }).2.payload
      = [] ∧
    ((handle_positive_response handle message
      { fresh_response arbitration_id with mode := byte_at message.payload 0 }).1 = true
      ↔ handle.request.pid = 0) ∧
    (handle.request.pid = 0 →
      (handle_positive_response handle message
        { fresh_response arbitration_id with mode := byte_at message.payload 0 }).2.success
        = true ∧
      (handle_positive_response handle message
        { fresh_response arbitration_id with mode := byte_at message.payload 0 }).2.completed
        = true) ∧
    (handle.request.pid ≠ 0 →
      (handle_positive_response handle message
        { fresh_response arbitration_id with mode := byte_at message.payload 0 }).1 = false ∧
      (handle_positive_response handle message
        { fresh_response arbitration_id with mode := byte_at message.payload 0 }).2.success
        = false ∧
      (handle_positive_response handle message
        { fresh_response arbitration_id with mode := byte_at message.payload 0 }).2.completed
        = false ∧
      (byte_at message.payload 0 ≠ NEGATIVE_RESPONSE_MODE →
        ∀ (shims : DiagnosticShims) (data : List Nat) (size : Nat),
          shims.log = true →
          Reassembles T handle arbitration_id data size message →
          ∃ r, diagnostic_receive_can_frame T shims handle arbitration_id data size = some r ∧
            r.handle.success = handle.success ∧
            r.handle.completed = handle.completed ∧
            r.handle.request = handle.request ∧
            r.response.completed = false)) := by
  obtain ⟨h1, h2, h3, h4, h5, h6, h7⟩ :=
    receive_one_byte_response T handle message arbitration_id hpid hL hsz h0
  refine ⟨h1, h2, h3, h4, h5, h6, ?_⟩
  intro hp
  obtain ⟨g1, g2, g3, g4⟩ := h7 hp
  refine ⟨g1, g2, g3, ?_⟩
  intro hneg shims data size hlog hre
  exact ⟨_, receive_with_logger T shims handle arbitration_id data size hlog,
    g4 hneg data size hre⟩

/-- Witness of C23: the one-byte message `41` answers a mode 0x01 request for
pid 0x0C with a mismatch and, with a logging shim set, the handle keeps
waiting; it answers a mode 0x01 request for pid 0 with a match without PID. -/
theorem positive_response_without_pid_bytes_witness :
    (handle_positive_response (receiving_handle (pid_request 0x7e0 0x01 0x0c 1) [0x7e8])
        (frame_message 0x7e8 [0x41])
        { fresh_response 0x7e8 with mode := 0x41 }).1 = false ∧
    (diagnostic_receive_can_frame frame_transport (diagnostic_init_shims true true true)
        (receiving_handle (pid_request 0x7e0 0x01 0x0c 1) [0x7e8])
        0x7e8 [0x41] 1).map (fun r => r.handle.completed) = some false ∧
    handle_positive_response (receiving_handle (pid_request 0x7e0 0x01 0 1) [0x7e8])
        (frame_message 0x7e8 [0x41])
        { fresh_response 0x7e8 with mode := 0x41 } =
      (true,
        { completed := true, success := true, arbitration_id := 0x7e8, mode := 0x01,
          has_pid := false, pid := 0, negative_response_code := 0,
          payload := [], payload_length := 0 }) :=
  have h := positive_response_without_pid_bytes frame_transport
    (receiving_handle (pid_request 0x7e0 0x01 0x0c 1) [0x7e8])
    (frame_message 0x7e8 [0x41]) 0x7e8 rfl (by decide) rfl rfl
  have hne := h.2.2.2.2.2.2 (by decide)
  ⟨hne.1, rfl, rfl⟩

end Uds
